import Mathlib

/-!
Shallow embedding of the near-market orderbook service core
(matching engine, order book, collateral manager, settlement
scheduler) and of the cross-chain verifier contract, together with
theorems settling the specification claims.

Conventions of the embedding:
* Rust `u64` / `u128` quantities (prices, sizes, balances) are `Nat`;
  subtractions in the source use `saturating_sub`, which coincides with
  truncated `Nat` subtraction.
* `BTreeMap` is an association list with unique keys; `iter().next()`
  is the entry with the minimal key and `iter().next_back()` the entry
  with the maximal key.
* `Uuid` order and trade identifiers are `Nat`; `Uuid::new_v4()` for a
  trade id is determinized to `0` (no claim depends on trade ids).
* `DateTime<Utc>` is a `Nat` tick; `Utc::now()` is an explicit `now`
  parameter threaded through the functions that read the clock.
* external queries (NEAR balances, contract calls, database rows) are
  inputs: balance oracles are function-valued environments, fallible
  external calls are `Except String` valued environments.
* the `while` loops of `match_limit_order` / `match_market_order` are
  given an explicit fuel parameter; all properties proved about them
  hold for every fuel value.
-/

namespace NearMarket

/-- Side of an order, from `types.rs` `OrderSide`. -/
inductive OrderSide where
  | Buy
  | Sell
deriving DecidableEq, Repr

/-- Order type, from `types.rs` `OrderType`. -/
inductive OrderType where
  | Limit
  | Market
  | GTC
  | FOK
  | GTD
  | FAK
deriving DecidableEq, Repr

/-- Order status, from `types.rs` `OrderStatus`. -/
inductive OrderStatus where
  | Pending
  | PartiallyFilled
  | Filled
  | Cancelled
  | Expired
  | Failed
deriving DecidableEq, Repr

/-- Trade type, from `types.rs` `TradeType`. -/
inductive TradeType where
  | DirectMatch
  | Minting
  | Burning
deriving DecidableEq, Repr

/-- Settlement status of a trade, from `types.rs` `SettlementStatus`. -/
inductive SettlementStatus where
  | Pending
  | Settling
  | Settled
  | Failed
deriving DecidableEq, Repr

/-- An order, from `types.rs` `Order` (ids are `Nat`, times are `Nat`). -/
structure Order where
  order_id : Nat
  market_id : String
  condition_id : String
  user_account : String
  outcome : Nat
  side : OrderSide
  order_type : OrderType
  price : Nat
  original_size : Nat
  remaining_size : Nat
  filled_size : Nat
  status : OrderStatus
  created_at : Nat
  expires_at : Option Nat
  solver_account : String
deriving DecidableEq, Repr

/-- A trade, from `types.rs` `Trade`. -/
structure Trade where
  trade_id : Nat
  market_id : String
  condition_id : String
  maker_order_id : Nat
  taker_order_id : Nat
  maker_account : String
  taker_account : String
  maker_side : OrderSide
  taker_side : OrderSide
  outcome : Nat
  price : Nat
  size : Nat
  trade_type : TradeType
  executed_at : Nat
  settlement_status : SettlementStatus
  settlement_tx_hash : Option String
deriving DecidableEq, Repr

/-- Aggregated price level, from `types.rs` `PriceLevel`. -/
structure PriceLevel where
  price : Nat
  size : Nat
  order_count : Nat
deriving DecidableEq, Repr

/-! Association-list model of `BTreeMap` (unique keys). -/

/-- Lookup in an association list keyed by `Nat`. -/
def alGet {α : Type} (m : List (Nat × α)) (k : Nat) : Option α :=
  match m.find? (fun e => e.1 = k) with
  | some e => some e.2
  | none => none

/-- Insert or replace a binding in an association list keyed by `Nat`. -/
def alPut {α : Type} (m : List (Nat × α)) (k : Nat) (v : α) : List (Nat × α) :=
  match m with
  | [] => [(k, v)]
  | e :: rest => if e.1 = k then (k, v) :: rest else e :: alPut rest k v

/-- Remove a binding from an association list keyed by `Nat`. -/
def alDrop {α : Type} (m : List (Nat × α)) (k : Nat) : List (Nat × α) :=
  m.filter (fun e => e.1 ≠ k)

/-- Entry with the minimal key (`BTreeMap::iter().next()`). -/
def minKeyEntry {α : Type} (m : List (Nat × α)) : Option (Nat × α) :=
  m.foldl (fun acc e =>
    match acc with
    | none => some e
    | some b => if e.1 < b.1 then some e else some b) none

/-- Entry with the maximal key (`BTreeMap::iter().next_back()`). -/
def maxKeyEntry {α : Type} (m : List (Nat × α)) : Option (Nat × α) :=
  m.foldl (fun acc e =>
    match acc with
    | none => some e
    | some b => if b.1 < e.1 then some e else some b) none

/-- Lookup in an association list keyed by `String`. -/
def alGetS {α : Type} (m : List (String × α)) (k : String) : Option α :=
  match m.find? (fun e => e.1 = k) with
  | some e => some e.2
  | none => none

/-- Insert or replace a binding in an association list keyed by `String`. -/
def alPutS {α : Type} (m : List (String × α)) (k : String) (v : α) : List (String × α) :=
  match m with
  | [] => [(k, v)]
  | e :: rest => if e.1 = k then (k, v) :: rest else e :: alPutS rest k v

/-! Order book, from `matching/engine.rs` `OrderBook`. -/

/-- In-memory order book for one (market, outcome), from `engine.rs`. -/
structure OrderBook where
  bids : List (Nat × PriceLevel)
  asks : List (Nat × PriceLevel)
  orders : List (Nat × Order)
  bid_orders : List (Nat × List Order)
  ask_orders : List (Nat × List Order)
  last_trade_price : Option Nat
  total_volume : Nat
deriving DecidableEq, Repr

namespace OrderBook

/-- Empty order book, from `OrderBook::new`. -/
def new : OrderBook :=
  { bids := [], asks := [], orders := [], bid_orders := [], ask_orders := []
    last_trade_price := none, total_volume := 0 }

/-- Add an order to the book, from `OrderBook::add_order`. -/
def add_order (b : OrderBook) (o : Order) : OrderBook :=
  let price := o.price
  let size := o.remaining_size
  let b := { b with orders := alPut b.orders o.order_id o }
  match o.side with
  | OrderSide.Buy =>
    let lvl := (alGet b.bids price).getD { price := price, size := 0, order_count := 0 }
    let lvl := { lvl with size := lvl.size + size, order_count := lvl.order_count + 1 }
    { b with bids := alPut b.bids price lvl
             bid_orders := alPut b.bid_orders price
               (((alGet b.bid_orders price).getD []) ++ [o]) }
  | OrderSide.Sell =>
    let lvl := (alGet b.asks price).getD { price := price, size := 0, order_count := 0 }
    let lvl := { lvl with size := lvl.size + size, order_count := lvl.order_count + 1 }
    { b with asks := alPut b.asks price lvl
             ask_orders := alPut b.ask_orders price
               (((alGet b.ask_orders price).getD []) ++ [o]) }

/-- Remove an order by id, from `OrderBook::remove_order` (no-op when the
id is absent from the `orders` map). -/
def remove_order (b : OrderBook) (order_id : Nat) : OrderBook :=
  match alGet b.orders order_id with
  | none => b
  | some o =>
    let price := o.price
    let size := o.remaining_size
    let b := { b with orders := alDrop b.orders order_id }
    match o.side with
    | OrderSide.Buy =>
      let b :=
        match alGet b.bids price with
        | none => b
        | some lvl =>
          let lvl := { lvl with size := lvl.size - size, order_count := lvl.order_count - 1 }
          if lvl.order_count = 0 then { b with bids := alDrop b.bids price }
          else { b with bids := alPut b.bids price lvl }
      match alGet b.bid_orders price with
      | none => b
      | some os =>
        let os := os.filter (fun o' => o'.order_id ≠ order_id)
        if os.isEmpty then { b with bid_orders := alDrop b.bid_orders price }
        else { b with bid_orders := alPut b.bid_orders price os }
    | OrderSide.Sell =>
      let b :=
        match alGet b.asks price with
        | none => b
        | some lvl =>
          let lvl := { lvl with size := lvl.size - size, order_count := lvl.order_count - 1 }
          if lvl.order_count = 0 then { b with asks := alDrop b.asks price }
          else { b with asks := alPut b.asks price lvl }
      match alGet b.ask_orders price with
      | none => b
      | some os =>
        let os := os.filter (fun o' => o'.order_id ≠ order_id)
        if os.isEmpty then { b with ask_orders := alDrop b.ask_orders price }
        else { b with ask_orders := alPut b.ask_orders price os }

/-- Evict orders past their expiry at one price level, from
`OrderBook::remove_expired_orders_at_price`. -/
def remove_expired_orders_at_price (b : OrderBook) (now price : Nat)
    (side : OrderSide) : OrderBook :=
  let os :=
    match side with
    | OrderSide.Buy => (alGet b.bid_orders price).getD []
    | OrderSide.Sell => (alGet b.ask_orders price).getD []
  let expired := (os.filter (fun o =>
    match o.expires_at with
    | some t => now > t
    | none => false)).map (fun o => o.order_id)
  expired.foldl (fun b' oid => b'.remove_order oid) b

/-- Update a price level after a trade, from
`OrderBook::update_price_level_after_trade`.  Note: `order_count` is
decremented even for a partial fill, and a level whose size or count
reaches zero is dropped together with its order queue. -/
def update_price_level_after_trade (b : OrderBook) (price trade_size : Nat)
    (side : OrderSide) : OrderBook :=
  match side with
  | OrderSide.Buy =>
    match alGet b.bids price with
    | none => b
    | some lvl =>
      let lvl := { lvl with size := lvl.size - trade_size
                            order_count := lvl.order_count - 1 }
      if lvl.size = 0 ∨ lvl.order_count = 0 then
        { b with bids := alDrop b.bids price, bid_orders := alDrop b.bid_orders price }
      else { b with bids := alPut b.bids price lvl }
  | OrderSide.Sell =>
    match alGet b.asks price with
    | none => b
    | some lvl =>
      let lvl := { lvl with size := lvl.size - trade_size
                            order_count := lvl.order_count - 1 }
      if lvl.size = 0 ∨ lvl.order_count = 0 then
        { b with asks := alDrop b.asks price, ask_orders := alDrop b.ask_orders price }
      else { b with asks := alPut b.asks price lvl }

/-- One match step against the head maker order of a level, from
`OrderBook::execute_match`.  Returns the updated taker, the emitted
trade (if any) and the updated book. -/
def execute_match (b : OrderBook) (now : Nat) (taker : Order)
    (maker_price : Nat) (maker_side : OrderSide) :
    Order × Option Trade × OrderBook :=
  let b := b.remove_expired_orders_at_price now maker_price maker_side
  let maker_orders :=
    match maker_side with
    | OrderSide.Buy => alGet b.bid_orders maker_price
    | OrderSide.Sell => alGet b.ask_orders maker_price
  match maker_orders with
  | none => (taker, none, b)
  | some [] => (taker, none, b)
  | some (maker :: rest) =>
    let trade_size := min taker.remaining_size maker.remaining_size
    if trade_size = 0 then (taker, none, b)
    else
      let trade : Trade :=
        { trade_id := 0
          market_id := taker.market_id
          condition_id := taker.condition_id
          maker_order_id := maker.order_id
          taker_order_id := taker.order_id
          maker_account := maker.user_account
          taker_account := taker.user_account
          maker_side := maker.side
          taker_side := taker.side
          outcome := taker.outcome
          price := maker_price
          size := trade_size
          trade_type := TradeType.Minting
          executed_at := now
          settlement_status := SettlementStatus.Pending
          settlement_tx_hash := none }
      let taker' := { taker with
        remaining_size := taker.remaining_size - trade_size
        filled_size := taker.filled_size + trade_size }
      let maker' := { maker with
        remaining_size := maker.remaining_size - trade_size
        filled_size := maker.filled_size + trade_size }
      let taker' := { taker' with status :=
        if taker'.remaining_size = 0 then OrderStatus.Filled
        else OrderStatus.PartiallyFilled }
      let maker' := { maker' with status :=
        if maker'.remaining_size = 0 then OrderStatus.Filled
        else OrderStatus.PartiallyFilled }
      let should_remove_maker := maker'.remaining_size = 0
      let b :=
        if should_remove_maker then
          let b :=
            match maker_side with
            | OrderSide.Buy => { b with bid_orders := alPut b.bid_orders maker_price rest }
            | OrderSide.Sell => { b with ask_orders := alPut b.ask_orders maker_price rest }
          { b with orders := alDrop b.orders maker.order_id }
        else
          match maker_side with
          | OrderSide.Buy =>
            { b with bid_orders := alPut b.bid_orders maker_price (maker' :: rest) }
          | OrderSide.Sell =>
            { b with ask_orders := alPut b.ask_orders maker_price (maker' :: rest) }
      let b := b.update_price_level_after_trade maker_price trade_size maker_side
      let b := { b with last_trade_price := some maker_price
                        total_volume := b.total_volume + trade_size }
      (taker', some trade, b)

/-- Matching loop of a Buy limit order against asks, from the
`OrderSide::Buy` arm of `OrderBook::match_limit_order` (fuel-indexed). -/
def match_limit_loop_buy (b : OrderBook) (now : Nat) :
    Nat → Order → List Trade → Order × List Trade × OrderBook
  | 0, taker, trades => (taker, trades, b)
  | fuel + 1, taker, trades =>
    if taker.remaining_size = 0 then (taker, trades, b)
    else
      match minKeyEntry b.asks with
      | none => (taker, trades, b)
      | some (best_ask_price, lvl) =>
        if best_ask_price ≤ taker.price then
          let (taker', otr, b') := b.execute_match now taker best_ask_price OrderSide.Sell
          match otr with
          | some tr => match_limit_loop_buy b' now fuel taker' (trades ++ [tr])
          | none =>
            if lvl.size = 0 then match_limit_loop_buy b' now fuel taker' trades
            else (taker', trades, b')
        else (taker, trades, b)

/-- Matching loop of a Sell limit order against bids, from the
`OrderSide::Sell` arm of `OrderBook::match_limit_order` (fuel-indexed). -/
def match_limit_loop_sell (b : OrderBook) (now : Nat) :
    Nat → Order → List Trade → Order × List Trade × OrderBook
  | 0, taker, trades => (taker, trades, b)
  | fuel + 1, taker, trades =>
    if taker.remaining_size = 0 then (taker, trades, b)
    else
      match maxKeyEntry b.bids with
      | none => (taker, trades, b)
      | some (best_bid_price, lvl) =>
        if taker.price ≤ best_bid_price then
          let (taker', otr, b') := b.execute_match now taker best_bid_price OrderSide.Buy
          match otr with
          | some tr => match_limit_loop_sell b' now fuel taker' (trades ++ [tr])
          | none =>
            if lvl.size = 0 then match_limit_loop_sell b' now fuel taker' trades
            else (taker', trades, b')
        else (taker, trades, b)

/-- Match a limit order and rest any remainder, from
`OrderBook::match_limit_order`. -/
def match_limit_order (b : OrderBook) (fuel now : Nat) (incoming : Order) :
    List Trade × OrderBook :=
  let (remaining, trades, b') :=
    match incoming.side with
    | OrderSide.Buy => b.match_limit_loop_buy now fuel incoming []
    | OrderSide.Sell => b.match_limit_loop_sell now fuel incoming []
  if remaining.remaining_size > 0 then (trades, b'.add_order remaining)
  else (trades, b')

/-- Matching loop of a Buy market order, from the `OrderSide::Buy` arm
of `OrderBook::match_market_order` (fuel-indexed). -/
def match_market_loop_buy (b : OrderBook) (now : Nat) :
    Nat → Order → List Trade → Order × List Trade × OrderBook
  | 0, taker, trades => (taker, trades, b)
  | fuel + 1, taker, trades =>
    if taker.remaining_size = 0 then (taker, trades, b)
    else
      match minKeyEntry b.asks with
      | none => (taker, trades, b)
      | some (best_ask_price, lvl) =>
        let (taker', otr, b') := b.execute_match now taker best_ask_price OrderSide.Sell
        match otr with
        | some tr => match_market_loop_buy b' now fuel taker' (trades ++ [tr])
        | none =>
          if lvl.size = 0 then match_market_loop_buy b' now fuel taker' trades
          else (taker', trades, b')

/-- Matching loop of a Sell market order, from the `OrderSide::Sell` arm
of `OrderBook::match_market_order` (fuel-indexed). -/
def match_market_loop_sell (b : OrderBook) (now : Nat) :
    Nat → Order → List Trade → Order × List Trade × OrderBook
  | 0, taker, trades => (taker, trades, b)
  | fuel + 1, taker, trades =>
    if taker.remaining_size = 0 then (taker, trades, b)
    else
      match maxKeyEntry b.bids with
      | none => (taker, trades, b)
      | some (best_bid_price, lvl) =>
        let (taker', otr, b') := b.execute_match now taker best_bid_price OrderSide.Buy
        match otr with
        | some tr => match_market_loop_sell b' now fuel taker' (trades ++ [tr])
        | none =>
          if lvl.size = 0 then match_market_loop_sell b' now fuel taker' trades
          else (taker', trades, b')

/-- Match a market order (never rests), from `OrderBook::match_market_order`. -/
def match_market_order (b : OrderBook) (fuel now : Nat) (incoming : Order) :
    List Trade × OrderBook :=
  let (_, trades, b') :=
    match incoming.side with
    | OrderSide.Buy => b.match_market_loop_buy now fuel incoming []
    | OrderSide.Sell => b.match_market_loop_sell now fuel incoming []
  (trades, b')

/-- Head order at a price on a side, from
`OrderBook::get_orders_by_price_and_side`. -/
def get_orders_by_price_and_side (b : OrderBook) (price : Nat)
    (side : OrderSide) : Option Order :=
  let os :=
    match side with
    | OrderSide.Buy => alGet b.bid_orders price
    | OrderSide.Sell => alGet b.ask_orders price
  match os with
  | some (o :: _) => some o
  | _ => none

/-- Shrink an order in the `orders` map and its level aggregate, from
`OrderBook::update_order_size` (the per-price order queues are not
touched by the source). -/
def update_order_size (b : OrderBook) (order_id new_remaining_size : Nat) :
    OrderBook :=
  match alGet b.orders order_id with
  | none => b
  | some o =>
    let size_diff := o.remaining_size - new_remaining_size
    let o' := { o with remaining_size := new_remaining_size }
    let b := { b with orders := alPut b.orders order_id o' }
    match o.side with
    | OrderSide.Buy =>
      match alGet b.bids o.price with
      | none => b
      | some lvl => { b with bids := alPut b.bids o.price { lvl with size := lvl.size - size_diff } }
    | OrderSide.Sell =>
      match alGet b.asks o.price with
      | none => b
      | some lvl => { b with asks := alPut b.asks o.price { lvl with size := lvl.size - size_diff } }

/-- Remove a specific order found by complementary matching, from
`OrderBook::remove_specific_order`. -/
def remove_specific_order (b : OrderBook) (order_id price : Nat)
    (side : OrderSide) : OrderBook :=
  let b :=
    match side with
    | OrderSide.Buy =>
      match alGet b.bid_orders price with
      | none => b
      | some os =>
        let os := os.filter (fun o' : Order => o'.order_id ≠ order_id)
        if os.isEmpty then { b with bid_orders := alDrop b.bid_orders price }
        else { b with bid_orders := alPut b.bid_orders price os }
    | OrderSide.Sell =>
      match alGet b.ask_orders price with
      | none => b
      | some os =>
        let os := os.filter (fun o' : Order => o'.order_id ≠ order_id)
        if os.isEmpty then { b with ask_orders := alDrop b.ask_orders price }
        else { b with ask_orders := alPut b.ask_orders price os }
  let b := { b with orders := alDrop b.orders order_id }
  match side with
  | OrderSide.Buy =>
    match alGet b.bids price with
    | none => b
    | some lvl =>
      let lvl := { lvl with order_count := lvl.order_count - 1 }
      if lvl.order_count = 0 then { b with bids := alDrop b.bids price }
      else { b with bids := alPut b.bids price lvl }
  | OrderSide.Sell =>
    match alGet b.asks price with
    | none => b
    | some lvl =>
      let lvl := { lvl with order_count := lvl.order_count - 1 }
      if lvl.order_count = 0 then { b with asks := alDrop b.asks price }
      else { b with asks := alPut b.asks price lvl }

end OrderBook



/-! Collateral manager, from `collateral/mod.rs` `CollateralManager`. -/

/-- Collateral reservation row, from `types.rs` `CollateralReservation`. -/
structure CollateralReservation where
  reservation_id : Nat
  account_id : String
  market_id : String
  order_id : Nat
  reserved_amount : Nat
  max_loss : Nat
  side : OrderSide
  price : Nat
  size : Nat
  created_at : Nat
deriving DecidableEq, Repr

/-- Results of the external NEAR queries consumed by the collateral
manager.  The bounded-retry loops of the source repeat the same query,
so each is collapsed to its final `Except` outcome. -/
structure NearEnv where
  usdc_balance : String → Except String Nat
  market_condition_id : String → Except String (Option String)
  position_id_for_outcome : String → Nat → Except String String
  ctf_token_balance : String → String → Except String Nat

/-- Global engine + ledger state threaded through `MatchingEngine`
transactions: the in-memory order books (market → outcome → book), the
database rows for orders and trades, the stored reservations, and the
settlement channel contents. -/
structure EngineState where
  orderbooks : List (String × List (Nat × OrderBook))
  db_orders : List (Nat × Order)
  db_trades : List Trade
  reservations : List CollateralReservation
  settlement_queue : List Trade
deriving DecidableEq, Repr

/-- Required balance for an order, from
`CollateralManager::calculate_required_balance` (the source returns
`Ok` on every path). -/
def calculate_required_balance (o : Order) : Nat :=
  match o.side with
  | OrderSide.Buy => o.remaining_size * o.price / 100000
  | OrderSide.Sell => o.remaining_size

/-- Stub from the source: reserved USDC for pending buy orders
("For now, return 0"), from `CollateralManager::get_reserved_usdc_for_market`. -/
def get_reserved_usdc_for_market (_account_id _market_id : String) : Nat := 0

/-- Stub from the source: reserved tokens for pending sell orders
("For now, return 0"), from `CollateralManager::get_reserved_tokens_for_market`. -/
def get_reserved_tokens_for_market (_account_id _market_id : String) : Nat := 0

/-- Condition id lookup with retries collapsed, from
`CollateralManager::get_condition_id_with_retry`. -/
def get_condition_id_with_retry (env : NearEnv) (market_id : String) :
    Except String String :=
  match env.market_condition_id market_id with
  | Except.ok (some id) => Except.ok id
  | Except.ok none => Except.error "Market has no condition ID registered"
  | Except.error e => Except.error e

/-- Token balance for one outcome with retries collapsed, from
`CollateralManager::get_token_balance_with_retry`. -/
def get_token_balance_with_retry (env : NearEnv) (account_id condition_id : String)
    (outcome : Nat) : Except String Nat :=
  match env.position_id_for_outcome condition_id outcome with
  | Except.error e => Except.error e
  | Except.ok position_id => env.ctf_token_balance account_id position_id

/-- Combined YES + NO outcome-token balance of a user in a market, from
`CollateralManager::get_user_outcome_token_balance` (falls back to the
available side when one balance query fails, errors when both fail). -/
def get_user_outcome_token_balance (env : NearEnv) (account_id market_id : String) :
    Except String Nat :=
  match get_condition_id_with_retry env market_id with
  | Except.error e => Except.error e
  | Except.ok condition_id =>
    let yes_balance := get_token_balance_with_retry env account_id condition_id 1
    let no_balance := get_token_balance_with_retry env account_id condition_id 0
    match yes_balance, no_balance with
    | Except.ok yes, Except.ok no => Except.ok (yes + no)
    | Except.ok yes, Except.error _ => Except.ok yes
    | Except.error _, Except.ok no => Except.ok no
    | Except.error _, Except.error _ => Except.error "Failed to get token balances"

/-- Live available balance for a market and side, from
`CollateralManager::get_real_time_market_balance`. -/
def get_real_time_market_balance (env : NearEnv) (account_id market_id : String)
    (side : OrderSide) : Except String Nat :=
  match side with
  | OrderSide.Buy =>
    match env.usdc_balance account_id with
    | Except.error e => Except.error e
    | Except.ok usdc =>
      let reserved := get_reserved_usdc_for_market account_id market_id
      Except.ok (usdc - reserved)
  | OrderSide.Sell =>
    match get_user_outcome_token_balance env account_id market_id with
    | Except.error e => Except.error e
    | Except.ok token_balance =>
      let reserved := get_reserved_tokens_for_market account_id market_id
      Except.ok (token_balance - reserved)

/-- Atomic reservation write, from
`CollateralManager::reserve_market_balance_atomic` (reached through
`reserve_market_balance`, which passes a fresh dummy order id,
determinized to `0`). -/
def reserve_market_balance_atomic (st : EngineState) (account_id market_id : String)
    (side : OrderSide) (amount : Nat) (order_id now : Nat) : EngineState :=
  let r : CollateralReservation :=
    { reservation_id := 0
      account_id := account_id
      market_id := market_id
      order_id := order_id
      reserved_amount := amount
      max_loss := amount
      side := side
      price := 0
      size := amount
      created_at := now }
  { st with reservations := st.reservations ++ [r] }

/-- Balance check and reservation at admission, from
`CollateralManager::check_and_reserve_balance`. -/
def check_and_reserve_balance (env : NearEnv) (st : EngineState) (now : Nat)
    (o : Order) : Except String (Bool × EngineState) :=
  let required_balance := calculate_required_balance o
  match get_real_time_market_balance env o.user_account o.market_id o.side with
  | Except.error e => Except.error e
  | Except.ok available =>
    if available < required_balance then Except.ok (false, st)
    else
      Except.ok (true,
        reserve_market_balance_atomic st o.user_account o.market_id o.side
          required_balance 0 now)

/-- Documented no-op in the source ("database implementation pending"),
from `CollateralManager::execute_atomic_balance_release`. -/
def execute_atomic_balance_release (st : EngineState)
    (_account_id _market_id : String) (_amount : Nat) : EngineState := st

/-- Release of a market reservation, from
`CollateralManager::release_market_balance`. -/
def release_market_balance (st : EngineState) (account_id market_id : String)
    (amount : Nat) : EngineState :=
  execute_atomic_balance_release st account_id market_id amount

/-! Matching engine, from `matching/mod.rs` `MatchingEngine`. -/

/-- Complement price with validation, from
`MatchingEngine::calculate_complement_price`. -/
def calculate_complement_price (price : Nat) : Except String Nat :=
  if price > 99999 then Except.error "Invalid price: exceeds 99999"
  else if price = 0 then Except.error "Market orders skip complementary matching"
  else Except.ok (100000 - price)

/-- Locate and validate a complementary maker, from
`MatchingEngine::find_and_validate_complementary_order`. -/
def find_and_validate_complementary_order (b : OrderBook) (now target_price : Nat)
    (incoming_side : OrderSide) (incoming_size : Nat) : Option (Order × Nat) :=
  match b.get_orders_by_price_and_side target_price incoming_side with
  | none => none
  | some o =>
    if o.status = OrderStatus.Pending ∨ o.status = OrderStatus.PartiallyFilled then
      let expired : Bool :=
        match o.expires_at with
        | some t => decide (now > t)
        | none => false
      if expired then none
      else
        let trade_size := min incoming_size o.remaining_size
        if trade_size = 0 then none
        else some (o, trade_size)
    else none

/-- Build a validated complementary mint trade and update both orders,
from `MatchingEngine::create_complementary_mint_trade_validated_mutable`.
Returns the trade together with the updated taker and maker. -/
def create_complementary_mint_trade_validated_mutable (now : Nat)
    (taker maker : Order) (validated_trade_size : Nat) :
    Except String (Trade × Order × Order) :=
  if validated_trade_size = 0 then
    Except.error "Invalid trade size: cannot be zero"
  else if validated_trade_size > taker.remaining_size ∨
          validated_trade_size > maker.remaining_size then
    Except.error "Invalid trade size: exceeds available capacity"
  else
    let total_price := taker.price + maker.price
    if total_price > 100000 then
      Except.error "Complementary prices exceed one dollar"
    else
      let taker' := { taker with
        remaining_size := taker.remaining_size - validated_trade_size
        filled_size := taker.filled_size + validated_trade_size }
      let taker' := { taker' with status :=
        if taker'.remaining_size = 0 then OrderStatus.Filled
        else OrderStatus.PartiallyFilled }
      let maker' := { maker with
        remaining_size := maker.remaining_size - validated_trade_size
        filled_size := maker.filled_size + validated_trade_size }
      let maker' := { maker' with status :=
        if maker'.remaining_size = 0 then OrderStatus.Filled
        else OrderStatus.PartiallyFilled }
      let trade : Trade :=
        { trade_id := 0
          market_id := taker.market_id
          condition_id := taker.condition_id
          maker_order_id := maker'.order_id
          taker_order_id := taker.order_id
          maker_account := maker'.user_account
          taker_account := taker.user_account
          maker_side := maker'.side
          taker_side := taker.side
          outcome := taker.outcome
          price := taker.price
          size := validated_trade_size
          trade_type := TradeType.Minting
          executed_at := now
          settlement_status := SettlementStatus.Pending
          settlement_tx_hash := none }
      Except.ok (trade, taker', maker')

/-- Complementary matching transaction over the mutable incoming order,
from `MatchingEngine::execute_complementary_match_transaction_mutable`.
Returns the mint trades, the updated incoming order, the updated
per-outcome book map of the market, and the updated state. -/
def execute_complementary_match_transaction_mutable (st : EngineState)
    (mobs : List (Nat × OrderBook)) (now : Nat) (incoming : Order) :
    Except String (List Trade × Order × List (Nat × OrderBook) × EngineState) :=
  let complement_outcome := if incoming.outcome = 1 then 0 else 1
  match calculate_complement_price incoming.price with
  | Except.error e => Except.error e
  | Except.ok complement_price =>
    match alGet mobs complement_outcome with
    | none => Except.ok ([], incoming, mobs, st)
    | some cbook =>
      match find_and_validate_complementary_order cbook now complement_price
          incoming.side incoming.remaining_size with
      | none => Except.ok ([], incoming, mobs, st)
      | some (maker, validated_trade_size) =>
        let maker_order_id := maker.order_id
        let maker_price := maker.price
        let maker_side := maker.side
        match create_complementary_mint_trade_validated_mutable now incoming maker
            validated_trade_size with
        | Except.error e => Except.error e
        | Except.ok (trade, taker', maker') =>
          let st := { st with db_orders := alPut st.db_orders maker'.order_id maker' }
          let cbook' :=
            if maker'.remaining_size = 0 then
              cbook.remove_specific_order maker_order_id maker_price maker_side
            else cbook.update_order_size maker_order_id maker'.remaining_size
          Except.ok ([trade], taker', alPut mobs complement_outcome cbook', st)

/-- Gate on order type and price before complementary matching, from
`MatchingEngine::check_complementary_matches_mutable`. -/
def check_complementary_matches_mutable (st : EngineState)
    (mobs : List (Nat × OrderBook)) (now : Nat) (incoming : Order) :
    Except String (List Trade × Order × List (Nat × OrderBook) × EngineState) :=
  let limit_like :=
    match incoming.order_type with
    | OrderType.Limit | OrderType.GTC | OrderType.GTD
    | OrderType.FOK | OrderType.FAK => true
    | OrderType.Market => false
  if limit_like = false then Except.ok ([], incoming, mobs, st)
  else if incoming.price = 0 then Except.ok ([], incoming, mobs, st)
  else execute_complementary_match_transaction_mutable st mobs now incoming

/-- Regular (price-time) matching against existing liquidity, from
`MatchingEngine::execute_regular_orderbook_matching`.  Returns the
trades, the updated working order and the updated per-outcome book map. -/
def execute_regular_orderbook_matching (fuel now : Nat) (working : Order)
    (mobs : List (Nat × OrderBook)) :
    List Trade × Order × List (Nat × OrderBook) :=
  let book := (alGet mobs working.outcome).getD OrderBook.new
  let (trades, book') :=
    match working.order_type with
    | OrderType.Market => book.match_market_order fuel now working
    | OrderType.Limit | OrderType.GTC | OrderType.GTD =>
      book.match_limit_order fuel now working
    | OrderType.FOK =>
      let (potential_trades, b') := book.match_limit_order fuel now working
      let total_filled := (potential_trades.map (fun t : Trade => t.size)).sum
      if total_filled = working.remaining_size then (potential_trades, b')
      else ([], b')
    | OrderType.FAK => book.match_limit_order fuel now working
  let working' := trades.foldl (fun w tr =>
    let w := { w with remaining_size := w.remaining_size - tr.size
                      filled_size := w.filled_size + tr.size }
    { w with status :=
        if w.remaining_size = 0 then OrderStatus.Filled
        else OrderStatus.PartiallyFilled }) working
  (trades, working', alPut mobs working.outcome book')

/-- Atomic order-submission transaction, from
`MatchingEngine::execute_order_submission_transaction` (the entry point
`submit_order` delegates here).  Returns the updated state and either
an error or the emitted trades with the final working order. -/
def execute_order_submission_transaction (env : NearEnv) (fuel now : Nat)
    (st : EngineState) (order : Order) :
    EngineState × Except String (List Trade × Order) :=
  match check_and_reserve_balance env st now order with
  | Except.error e => (st, Except.error e)
  | Except.ok (can_place_order, st1) =>
    if can_place_order = false then (st1, Except.error "Insufficient balance to place order")
    else
      let mobs := (alGetS st1.orderbooks order.market_id).getD []
      let st2 := { st1 with db_orders := alPut st1.db_orders order.order_id order }
      let working := order
      let (trades1, working1, mobs1) :=
        if working.remaining_size > 0 then
          execute_regular_orderbook_matching fuel now working mobs
        else ([], working, mobs)
      let (trades2, working2, mobs2, st3) :=
        if working1.remaining_size > 0 then
          match check_complementary_matches_mutable st2 mobs1 now working1 with
          | Except.ok r => r
          | Except.error _ => ([], working1, mobs1, st2)
        else ([], working1, mobs1, st2)
      let trades := trades1 ++ trades2
      let mobs3 :=
        if working2.remaining_size > 0 then
          let ob := (alGet mobs2 working2.outcome).getD OrderBook.new
          alPut mobs2 working2.outcome (ob.add_order working2)
        else mobs2
      let st4 := trades.foldl (fun s tr =>
        { s with db_trades := s.db_trades ++ [tr]
                 settlement_queue := s.settlement_queue ++ [tr] }) st3
      let st5 :=
        if trades.isEmpty then st4
        else { st4 with db_orders := alPut st4.db_orders working2.order_id working2 }
      let st6 := { st5 with orderbooks := alPutS st5.orderbooks order.market_id mobs3 }
      (st6, Except.ok (trades, working2))

/-- Atomic order-cancellation transaction, from
`MatchingEngine::execute_order_cancellation_transaction` (the entry
point `cancel_order` delegates here). -/
def execute_order_cancellation_transaction (st : EngineState) (order_id : Nat)
    (user_account : String) : EngineState × Except String Bool :=
  match alGet st.db_orders order_id with
  | none => (st, Except.error "Order not found")
  | some order =>
    if order.user_account ≠ user_account then
      (st, Except.error "Not authorized to cancel this order")
    else if ¬(order.status = OrderStatus.Pending ∨
              order.status = OrderStatus.PartiallyFilled) then
      (st, Except.error "Cannot cancel order in status")
    else
      let balance_to_release := calculate_required_balance order
      match alGetS st.orderbooks order.market_id with
      | none => (st, Except.error "Order not found in orderbook - may have been filled")
      | some mobs =>
        match alGet mobs order.outcome with
        | none => (st, Except.error "Order not found in orderbook - may have been filled")
        | some ob =>
          let ob' := ob.remove_order order_id
          let mobs' := alPut mobs order.outcome ob'
          let st := { st with orderbooks := alPutS st.orderbooks order.market_id mobs' }
          let order' := { order with status := OrderStatus.Cancelled }
          let st := { st with db_orders := alPut st.db_orders order_id order' }
          let st := release_market_balance st user_account order.market_id
            balance_to_release
          (st, Except.ok true)


/-! Settlement instructions, from `types.rs` and `collateral/mod.rs`. -/

/-- Settlement transfer instruction, from `types.rs` `CollateralTransfer`. -/
structure CollateralTransfer where
  from_account : String
  to_account : String
  outcome : Nat
  amount : Nat
  net_usdc_flow : Int
deriving DecidableEq, Repr

/-- Settlement kind, from `types.rs` `CollateralSettlementType`. -/
inductive CollateralSettlementType where
  | PureMinting
  | PureBurning
  | TokenTransfer
  | MixedSettlement
deriving DecidableEq, Repr

/-- Settlement plan, from `types.rs` `CollateralSettlement`. -/
structure CollateralSettlement where
  settlement_id : Nat
  market_id : String
  condition_id : String
  trades : List Trade
  total_collateral_required : Nat
  net_transfers : List CollateralTransfer
  tokens_to_mint : Nat
  settlement_type : CollateralSettlementType
deriving DecidableEq, Repr

/-- Settlement plan for complementary mint trades, from
`CollateralManager::calculate_minting_settlement`. -/
def calculate_minting_settlement (trades : List Trade)
    (market_id condition_id : String) : CollateralSettlement :=
  let step := fun (acc : List CollateralTransfer × Nat) (trade : Trade) =>
    let taker_usdc_payment := trade.size * trade.price / 100000
    let maker_usdc_payment := trade.size - taker_usdc_payment
    let maker_outcome := if trade.outcome = 1 then 0 else 1
    let taker_transfer : CollateralTransfer :=
      { from_account := "platform", to_account := trade.taker_account
        outcome := trade.outcome, amount := trade.size
        net_usdc_flow := -(taker_usdc_payment : Int) }
    let maker_transfer : CollateralTransfer :=
      { from_account := "platform", to_account := trade.maker_account
        outcome := maker_outcome, amount := trade.size
        net_usdc_flow := -(maker_usdc_payment : Int) }
    (acc.1 ++ [taker_transfer, maker_transfer], acc.2 + trade.size)
  let (transfers, total_collateral) := trades.foldl step ([], 0)
  { settlement_id := 0
    market_id := market_id
    condition_id := condition_id
    trades := trades
    total_collateral_required := total_collateral
    net_transfers := transfers
    tokens_to_mint := total_collateral
    settlement_type := CollateralSettlementType.PureMinting }

/-- Settlement plan for regular trades, from
`CollateralManager::calculate_atomic_swap_settlement`.  The source also
folds an auxiliary `net_positions` map that does not flow into the
returned settlement; it is omitted here. -/
def calculate_atomic_swap_settlement (trades : List Trade)
    (market_id condition_id : String) : CollateralSettlement :=
  let total_collateral := (trades.map (fun t : Trade => t.size)).sum
  let step := fun (acc : List CollateralTransfer) (trade : Trade) =>
    let pair :=
      match trade.taker_side with
      | OrderSide.Buy => (trade.taker_account, trade.maker_account)
      | OrderSide.Sell => (trade.maker_account, trade.taker_account)
    let buyer_account := pair.1
    let seller_account := pair.2
    let usdc_amount := trade.size * trade.price / 100000
    let buyer_transfer : CollateralTransfer :=
      { from_account := seller_account, to_account := buyer_account
        outcome := trade.outcome, amount := trade.size
        net_usdc_flow := -(usdc_amount : Int) }
    let seller_transfer : CollateralTransfer :=
      { from_account := buyer_account, to_account := seller_account
        outcome := trade.outcome, amount := trade.size
        net_usdc_flow := (usdc_amount : Int) }
    acc ++ [buyer_transfer, seller_transfer]
  let transfers := trades.foldl step []
  { settlement_id := 0
    market_id := market_id
    condition_id := condition_id
    trades := trades
    total_collateral_required := total_collateral
    net_transfers := transfers
    tokens_to_mint := total_collateral
    settlement_type := CollateralSettlementType.TokenTransfer }

/-- Dispatch to the settlement calculation, from
`CollateralManager::calculate_settlement`. -/
def calculate_settlement (trades : List Trade) :
    Except String CollateralSettlement :=
  match trades with
  | [] => Except.error "No trades to settle"
  | t :: _ =>
    if t.trade_type = TradeType.Minting then
      Except.ok (calculate_minting_settlement trades t.market_id t.condition_id)
    else
      Except.ok (calculate_atomic_swap_settlement trades t.market_id t.condition_id)

/-! Settlement scheduler, from `matching/settlement.rs` `SettlementManager`. -/

/-- Stored settlement status and tx hash of each trade row
(`trades` table projection used by the scheduler). -/
abbrev TradeStore := List (Nat × (SettlementStatus × Option String))

/-- Outcomes of the external settlement calls consumed by the
scheduler. -/
structure SettleEnv where
  execute_settlement : CollateralSettlement → Except String String
  execute_direct_trade : Trade → Except String String
  merge_positions : String → Nat → Except String String

/-- Status/hash update of a trade row, from the store's
`update_trade_settlement_status` (no-op when the row is missing). -/
def update_trade_settlement_status (store : TradeStore) (trade_id : Nat)
    (status : SettlementStatus) (tx_hash : Option String) : TradeStore :=
  match alGet store trade_id with
  | none => store
  | some _ => alPut store trade_id (status, tx_hash)

/-- Sequence-ascending stable sort used throughout the scheduler,
from the `sort_by_key(|(_, sequence)| *sequence)` calls. -/
def sort_by_sequence (l : List (Trade × Nat)) : List (Trade × Nat) :=
  List.insertionSort (fun a b => a.2 ≤ b.2) l

/-- Grouping by condition id, from the scheduler's
`HashMap::entry(trade.condition_id)` fold; the iteration order of the
hash map is determinized to first-occurrence order of the keys. -/
def group_by_condition (l : List (Trade × Nat)) :
    List (String × List (Trade × Nat)) :=
  l.foldl (fun acc tn =>
    match alGetS acc tn.1.condition_id with
    | some g => alPutS acc tn.1.condition_id (g ++ [tn])
    | none => acc ++ [(tn.1.condition_id, [tn])]) []

/-- Direct settlement of one trade, from
`SettlementManager::execute_direct_settlement_transaction`. -/
def execute_direct_settlement_transaction (env : SettleEnv) (store : TradeStore)
    (trade : Trade) : TradeStore × Except String Unit :=
  let store := update_trade_settlement_status store trade.trade_id
    SettlementStatus.Settling none
  match env.execute_direct_trade trade with
  | Except.error e => (store, Except.error e)
  | Except.ok tx_hash =>
    (update_trade_settlement_status store trade.trade_id
      SettlementStatus.Settled (some tx_hash), Except.ok ())

/-- Ordered processing of DirectMatch trades, from
`SettlementManager::settle_direct_matches_ordered`.  Also returns the
trades in the order they were processed. -/
def settle_direct_matches_ordered (env : SettleEnv) (store : TradeStore)
    (trades_with_sequence : List (Trade × Nat)) :
    TradeStore × List (Trade × Nat) :=
  let sorted_trades := sort_by_sequence trades_with_sequence
  let store := sorted_trades.foldl (fun st tn =>
    (execute_direct_settlement_transaction env st tn.1).1) store
  (store, sorted_trades)

/-- Atomic minting settlement of one condition bucket, from
`SettlementManager::execute_minting_settlement_transaction`. -/
def execute_minting_settlement_transaction (env : SettleEnv) (store : TradeStore)
    (_condition_id : String) (trades : List Trade) :
    TradeStore × Except String Unit :=
  let store := trades.foldl (fun st t =>
    update_trade_settlement_status st t.trade_id SettlementStatus.Settling none) store
  match calculate_settlement trades with
  | Except.error e => (store, Except.error e)
  | Except.ok settlement =>
    match env.execute_settlement settlement with
    | Except.error e => (store, Except.error e)
    | Except.ok tx_hash =>
      (trades.foldl (fun st t =>
        update_trade_settlement_status st t.trade_id SettlementStatus.Settled
          (some tx_hash)) store, Except.ok ())

/-- Ordered processing of Minting trades grouped by condition, from
`SettlementManager::settle_minting_trades_ordered`.  Also returns the
processed buckets in processing order. -/
def settle_minting_trades_ordered (env : SettleEnv) (store : TradeStore)
    (trades_with_sequence : List (Trade × Nat)) :
    TradeStore × List (String × List (Trade × Nat)) :=
  let by_condition := group_by_condition trades_with_sequence
  by_condition.foldl (fun acc bucket =>
    let condition_trades := sort_by_sequence bucket.2
    let trades := condition_trades.map (fun tn => tn.1)
    let store' := (execute_minting_settlement_transaction env acc.1 bucket.1 trades).1
    (store', acc.2 ++ [(bucket.1, condition_trades)])) (store, [])

/-- Atomic burning settlement of one condition bucket, from
`SettlementManager::execute_burning_settlement_transaction`. -/
def execute_burning_settlement_transaction (env : SettleEnv) (store : TradeStore)
    (condition_id : String) (trades : List Trade) :
    TradeStore × Except String Unit :=
  let total_amount := (trades.map (fun t : Trade => t.size)).sum
  let store := trades.foldl (fun st t =>
    update_trade_settlement_status st t.trade_id SettlementStatus.Settling none) store
  match env.merge_positions condition_id total_amount with
  | Except.error e => (store, Except.error e)
  | Except.ok tx_hash =>
    (trades.foldl (fun st t =>
      update_trade_settlement_status st t.trade_id SettlementStatus.Settled
        (some tx_hash)) store, Except.ok ())

/-- Ordered processing of Burning trades grouped by condition, from
`SettlementManager::settle_burning_trades_ordered`.  Also returns the
processed buckets in processing order. -/
def settle_burning_trades_ordered (env : SettleEnv) (store : TradeStore)
    (trades_with_sequence : List (Trade × Nat)) :
    TradeStore × List (String × List (Trade × Nat)) :=
  let by_condition := group_by_condition trades_with_sequence
  by_condition.foldl (fun acc bucket =>
    let condition_trades := sort_by_sequence bucket.2
    let trades := condition_trades.map (fun tn => tn.1)
    let store' := (execute_burning_settlement_transaction env acc.1 bucket.1 trades).1
    (store', acc.2 ++ [(bucket.1, condition_trades)])) (store, [])

/-- One settlement flush, from
`SettlementManager::settle_trades_batch_ordered`: sort by sequence,
partition by trade type preserving order, then settle Minting, then
DirectMatch, then Burning.  Returns the store and the processed
Minting buckets, DirectMatch trades, and Burning buckets, each in
processing order. -/
def settle_trades_batch_ordered (env : SettleEnv) (store : TradeStore)
    (trades_with_sequence : List (Trade × Nat)) :
    TradeStore × List (String × List (Trade × Nat)) × List (Trade × Nat) ×
      List (String × List (Trade × Nat)) :=
  if trades_with_sequence.isEmpty then (store, [], [], [])
  else
    let sorted_trades := sort_by_sequence trades_with_sequence
    let direct_matches := sorted_trades.filter
      (fun tn => tn.1.trade_type = TradeType.DirectMatch)
    let minting_trades := sorted_trades.filter
      (fun tn => tn.1.trade_type = TradeType.Minting)
    let burning_trades := sorted_trades.filter
      (fun tn => tn.1.trade_type = TradeType.Burning)
    let (store1, minting_buckets) :=
      if minting_trades.isEmpty then (store, [])
      else settle_minting_trades_ordered env store minting_trades
    let (store2, direct_processed) :=
      if direct_matches.isEmpty then (store1, [])
      else settle_direct_matches_ordered env store1 direct_matches
    let (store3, burning_buckets) :=
      if burning_trades.isEmpty then (store2, [])
      else settle_burning_trades_ordered env store2 burning_trades
    (store3, minting_buckets, direct_processed, burning_buckets)

/-! Cross-chain verifier, from `contracts/verifier/src/lib.rs`. -/

/-- Intent kind, from the verifier's `IntentType`. -/
inductive IntentType where
  | BuyShares
  | SellShares
  | MintComplete
  | RedeemWinning
deriving DecidableEq, Repr

/-- Bridge connector configuration, from `BridgeConnectorConfig`. -/
structure BridgeConnectorConfig where
  bridge_contract : String
  supported_chains : List Nat
  javascript_client_enabled : Bool
deriving DecidableEq, Repr

/-- Bridge security configuration, from `BridgeSecurityConfig`. -/
structure BridgeSecurityConfig where
  max_daily_volume : Nat
  max_single_transaction : Nat
  verification_timeout : Nat
  required_confirmations : Nat
  enable_whitelist : Bool
  whitelisted_tokens : List String
  emergency_pause : Bool
deriving DecidableEq, Repr

/-- Cross-chain intent, from the verifier's `CrossChainIntent`. -/
structure CrossChainIntent where
  intent_id : String
  source_user : String
  source_chain_id : Nat
  source_token : String
  market_id : String
  intent_type : IntentType
  outcome : Nat
  amount : Nat
  max_price : Option Nat
  min_price : Option Nat
  deadline : Nat
  order_type : OrderType
  bridge_min_amount : Nat
  return_to_source : Bool
deriving DecidableEq, Repr

/-- Bridge request handed to the off-chain relayer, from `BridgeRequest`. -/
structure BridgeRequest where
  request_id : String
  bridge_type : String
  source_chain_id : Option Nat
  target_chain_id : Option Nat
  token_address : String
  amount : String
  user_address : String
  near_recipient : Option String
  target_recipient : Option String
  intent_id : String
  status : String
  created_at : Nat
  result : Option String
deriving DecidableEq, Repr

/-- Verifier contract state (the fields reached by
`verify_bridge_transaction`), from `PredictionVerifier`. -/
structure VerifierState where
  verified_bridge_txs : List String
  pending_bridge_requests : List (String × BridgeRequest)
  bridge_connector_config : Option BridgeConnectorConfig
  bridge_security_config : BridgeSecurityConfig
deriving DecidableEq, Repr

/-- Left-to-right replacement of every `"0x"` occurrence by `"eth"`,
modelling Rust `str::replace("0x", "eth")` on the character list. -/
def replace_0x_eth_chars : List Char → List Char
  | '0' :: 'x' :: rest => 'e' :: 't' :: 'h' :: replace_0x_eth_chars rest
  | c :: rest => c :: replace_0x_eth_chars rest
  | [] => []

/-- String version of `replace_0x_eth_chars`. -/
def replace_0x_eth (s : String) : String := String.mk (replace_0x_eth_chars s.data)

/-- Test for the `"0x"` prefix, modelling Rust `str::starts_with("0x")`. -/
def starts_with_0x (s : String) : Bool :=
  match s.data with
  | '0' :: 'x' :: _ => true
  | _ => false

/-- Security checks, from `PredictionVerifier::perform_security_checks`. -/
def perform_security_checks (st : VerifierState) (intent : CrossChainIntent) :
    Except String Unit :=
  let cfg := st.bridge_security_config
  if intent.amount > cfg.max_single_transaction then
    Except.error "Transaction amount exceeds maximum allowed"
  else if intent.bridge_min_amount = 0 then
    Except.error "Bridge minimum amount must be positive"
  else if intent.amount < intent.bridge_min_amount then
    Except.error "Transaction amount below bridge minimum"
  else if cfg.enable_whitelist ∧
      cfg.whitelisted_tokens.contains intent.source_token = false then
    Except.error "Token not whitelisted for bridging"
  else if starts_with_0x intent.source_user = false ∨
      intent.source_user.length ≠ 42 then
    Except.error "Invalid source user address format"
  else Except.ok ()

/-- Bridge request creation for the relayer, from
`PredictionVerifier::create_bridge_request_for_relayer`. -/
def create_bridge_request_for_relayer (block_timestamp : Nat)
    (current_account_id : String) (st : VerifierState) (tx_hash : String)
    (intent : CrossChainIntent) : VerifierState :=
  let request_id := tx_hash ++ "_" ++ Nat.repr block_timestamp
  let bridge_request : BridgeRequest :=
    { request_id := request_id
      bridge_type := "to_near"
      source_chain_id := some intent.source_chain_id
      target_chain_id := none
      token_address := intent.source_token
      amount := Nat.repr intent.amount
      user_address := intent.source_user
      near_recipient := some (replace_0x_eth intent.source_user ++ "_" ++
        current_account_id)
      target_recipient := none
      intent_id := intent.intent_id
      status := "pending"
      created_at := block_timestamp
      result := none }
  { st with pending_bridge_requests :=
      alPutS st.pending_bridge_requests request_id bridge_request }

/-- Bridge transaction verification, from
`PredictionVerifier::verify_bridge_transaction`. -/
def verify_bridge_transaction (block_timestamp : Nat)
    (current_account_id : String) (st : VerifierState) (tx_hash : String)
    (intent : CrossChainIntent) : Except String VerifierState :=
  if st.bridge_security_config.emergency_pause then
    Except.error "Bridge operations are paused"
  else if tx_hash = "" ∨ starts_with_0x tx_hash = false ∨ tx_hash.length ≠ 66 then
    Except.error "Invalid transaction hash format"
  else if st.verified_bridge_txs.contains tx_hash then
    Except.error "Transaction already processed (replay attack prevention)"
  else
    match st.bridge_connector_config with
    | none => Except.error "Bridge config not initialized"
    | some bridge_config =>
      if bridge_config.javascript_client_enabled = false then
        Except.error "JavaScript bridge client not enabled"
      else if bridge_config.supported_chains.contains intent.source_chain_id
          = false then
        Except.error "Unsupported chain ID"
      else
        match perform_security_checks st intent with
        | Except.error e => Except.error e
        | Except.ok _ =>
          let st := create_bridge_request_for_relayer block_timestamp
            current_account_id st tx_hash intent
          let st := { st with verified_bridge_txs :=
            st.verified_bridge_txs ++ [tx_hash] }
          Except.ok st

/-- Daily volume tracking, from
`PredictionVerifier::update_daily_volume_tracking`.  The source
computes the current day and reads the configured limit into unused
local bindings, logs, and returns `Ok(())` without reading or writing
any volume counter; the verifier state holds no per-user volume field
and this function is never invoked by `verify_bridge_transaction`. -/
def update_daily_volume_tracking (_block_timestamp : Nat) (st : VerifierState)
    (_intent : CrossChainIntent) : Except String VerifierState :=
  Except.ok st


/-! Helper definitions used by the claim statements. -/

/-- The maker-side order queue at a price, as read by `execute_match`
(`bid_orders` for Buy makers, `ask_orders` for Sell makers). -/
def side_queue (b : OrderBook) (side : OrderSide) (price : Nat) :
    Option (List Order) :=
  match side with
  | OrderSide.Buy => alGet b.bid_orders price
  | OrderSide.Sell => alGet b.ask_orders price

/-- Well-formedness of the per-price order queues: every queued order
carries the price of its level and the side of its table.  Established
by `add_order` by construction; used to relate a level's key to the
maker order's own `price` field. -/
def book_queues_wf (b : OrderBook) : Prop :=
  (∀ e ∈ b.bid_orders, ∀ o ∈ e.2, o.price = e.1 ∧ o.side = OrderSide.Buy) ∧
  (∀ e ∈ b.ask_orders, ∀ o ∈ e.2, o.price = e.1 ∧ o.side = OrderSide.Sell)

instance (b : OrderBook) : Decidable (book_queues_wf b) := by
  unfold book_queues_wf; infer_instance

/-- Execution rank of the trade-type phases of a settlement flush:
Minting buckets run first, then DirectMatch, then Burning. -/
def settlement_type_rank : TradeType → Nat
  | TradeType.Minting => 0
  | TradeType.DirectMatch => 1
  | TradeType.Burning => 2

/-- Full processing order of one settlement flush: the trades of the
Minting buckets, then the DirectMatch trades, then the trades of the
Burning buckets, each segment in its processing order. -/
def flush_processing_order (env : SettleEnv) (store : TradeStore)
    (l : List (Trade × Nat)) : List (Trade × Nat) :=
  let r := settle_trades_batch_ordered env store l
  ((r.2.1.map (fun b => b.2)).flatten) ++ r.2.2.1 ++ ((r.2.2.2.map (fun b => b.2)).flatten)

/-- Modelled from the spec: the outcome-token amount already reserved
for this user and market by prior (sell-side) reservations, as the
quantity the spec says the sell-side balance check subtracts.  Used
only to compare the spec's description with the code's behavior. -/
def spec_prior_reserved_tokens (st : EngineState) (account market : String) : Nat :=
  ((st.reservations.filter (fun r =>
    r.account_id = account ∧ r.market_id = market ∧ r.side = OrderSide.Sell)).map
      (fun r => r.reserved_amount)).sum

instance : IsTotal (Trade × Nat) (fun a b => a.2 ≤ b.2) :=
  ⟨fun a b => Nat.le_total a.2 b.2⟩

instance : IsTrans (Trade × Nat) (fun a b => a.2 ≤ b.2) :=
  ⟨fun _ _ _ h h' => Nat.le_trans h h'⟩

/-! Concrete inputs used by the counterexamples and witnesses. -/

/-- Environment in which every external balance query succeeds with
ample funds. -/
def sample_env : NearEnv :=
  { usdc_balance := fun _ => Except.ok 1000000000
    market_condition_id := fun _ => Except.ok (some "c1")
    position_id_for_outcome := fun c o => Except.ok (c ++ "-" ++ Nat.repr o)
    ctf_token_balance := fun _ _ => Except.ok 1000000 }

/-- Empty engine state. -/
def engine_state0 : EngineState :=
  { orderbooks := [], db_orders := [], db_trades := []
    reservations := [], settlement_queue := [] }

/-- Order builder for the seed scenarios (market `m1`, condition `c1`). -/
def mk_order (oid outcome : Nat) (side : OrderSide) (ty : OrderType)
    (price size : Nat) (user : String) : Order :=
  { order_id := oid, market_id := "m1", condition_id := "c1"
    user_account := user, outcome := outcome, side := side, order_type := ty
    price := price, original_size := size, remaining_size := size
    filled_size := 0, status := OrderStatus.Pending, created_at := 0
    expires_at := none, solver_account := "s" }

/-- Placeholder trade used only as the default of `List.headD`. -/
def dummy_trade : Trade :=
  { trade_id := 0, market_id := "", condition_id := "", maker_order_id := 0
    taker_order_id := 0, maker_account := "", taker_account := ""
    maker_side := OrderSide.Buy, taker_side := OrderSide.Buy, outcome := 0
    price := 0, size := 0, trade_type := TradeType.DirectMatch, executed_at := 0
    settlement_status := SettlementStatus.Pending, settlement_tx_hash := none }

/-- Seed scenario 3: Alice Buy YES 1000 @ 60000 (rests). -/
def alice_buy_yes : Order := mk_order 1 1 OrderSide.Buy OrderType.Limit 60000 1000 "alice"

/-- Seed scenario 3: Bob Buy NO 1000 @ 40000 (incoming taker). -/
def bob_buy_no : Order := mk_order 2 0 OrderSide.Buy OrderType.Limit 40000 1000 "bob"

/-- Seed scenario 3, first submit (Alice). -/
def seed3_run_alice : EngineState × Except String (List Trade × Order) :=
  execute_order_submission_transaction sample_env 10 0 engine_state0 alice_buy_yes

/-- Seed scenario 3, second submit (Bob). -/
def seed3_run_bob : EngineState × Except String (List Trade × Order) :=
  execute_order_submission_transaction sample_env 10 0 seed3_run_alice.1 bob_buy_no

/-- Trades emitted by Bob's seed-3 submit. -/
def seed3_trades : List Trade :=
  match seed3_run_bob.2 with
  | Except.ok r => r.1
  | Except.error _ => []

/-- The single trade of seed scenario 3. -/
def seed3_trade : Trade := seed3_trades.headD dummy_trade

/-- Seed scenario 4: Alice Sell YES 300 @ 50000 (resting liquidity). -/
def alice_sell_yes : Order := mk_order 1 1 OrderSide.Sell OrderType.Limit 50000 300 "alice"

/-- Seed scenario 4: Carol FOK Buy YES 500 @ 50000. -/
def carol_fok_buy : Order := mk_order 2 1 OrderSide.Buy OrderType.FOK 50000 500 "carol"

/-- Seed scenario 4, first submit (Alice). -/
def seed4_run_alice : EngineState × Except String (List Trade × Order) :=
  execute_order_submission_transaction sample_env 10 0 engine_state0 alice_sell_yes

/-- Seed scenario 4, second submit (Carol's FOK). -/
def seed4_run_carol : EngineState × Except String (List Trade × Order) :=
  execute_order_submission_transaction sample_env 10 0 seed4_run_alice.1 carol_fok_buy

/-- Trades emitted by Carol's seed-4 FOK submit. -/
def seed4_trades : List Trade :=
  match seed4_run_carol.2 with
  | Except.ok r => r.1
  | Except.error _ => []

/-- YES-outcome book after seed-4 (for inspecting the consumed maker). -/
def seed4_yes_book : OrderBook :=
  (((alGetS seed4_run_carol.1.orderbooks "m1").getD []).find?
    (fun e => e.1 = 1)).elim OrderBook.new (fun e => e.2)

/-- YES book holding only Alice's resting order (complementary-match
witness input). -/
def c3_yes_book : OrderBook := OrderBook.new.add_order alice_buy_yes

/-- Per-outcome book map of the complementary-match witness. -/
def c3_mobs : List (Nat × OrderBook) := [(1, c3_yes_book)]

/-- Result of the complementary-match witness call (Bob's order against
the YES book). -/
def c3_run : Except String (List Trade × Order × List (Nat × OrderBook) × EngineState) :=
  check_complementary_matches_mutable engine_state0 c3_mobs 0 bob_buy_no

/-- Components of the complementary-match witness result. -/
def c3_out : List Trade × Order × List (Nat × OrderBook) × EngineState :=
  match c3_run with
  | Except.ok r => r
  | Except.error _ => ([], bob_buy_no, c3_mobs, engine_state0)

/-- Witness trade of the complementary-match call. -/
def c3_tr : Trade := c3_out.1.headD dummy_trade

/-- An order already cancelled by its owner. -/
def cancelled_order : Order :=
  { mk_order 7 1 OrderSide.Buy OrderType.Limit 50000 1000 "dave" with
    status := OrderStatus.Cancelled }

/-- State holding the already-cancelled order. -/
def c5_state : EngineState :=
  { engine_state0 with db_orders := [(7, cancelled_order)] }

/-- A pending order whose (market, outcome) has no in-memory book. -/
def c10_order : Order := mk_order 9 1 OrderSide.Buy OrderType.Limit 50000 1000 "dave"

/-- State holding the pending order but no order books at all. -/
def c10_state : EngineState :=
  { engine_state0 with db_orders := [(9, c10_order)] }

/-- Reservation row expected from admitting `alice_buy_yes`
(⌊60000·1000/100000⌋ = 600 collateral units). -/
def c8_expected_reservation : CollateralReservation :=
  { reservation_id := 0, account_id := "alice", market_id := "m1"
    order_id := 0, reserved_amount := 600, max_loss := 600
    side := OrderSide.Buy, price := 0, size := 600, created_at := 0 }

/-- State expected after admitting `alice_buy_yes`. -/
def c8_state' : EngineState :=
  { engine_state0 with reservations := [c8_expected_reservation] }

/-- A prior sell-side reservation of 1000 outcome tokens by alice. -/
def c9_reservation : CollateralReservation :=
  { reservation_id := 0, account_id := "alice", market_id := "m1"
    order_id := 5, reserved_amount := 1000, max_loss := 1000
    side := OrderSide.Sell, price := 0, size := 1000, created_at := 0 }

/-- State already holding alice's prior 1000-token sell reservation. -/
def c9_state : EngineState :=
  { engine_state0 with reservations := [c9_reservation] }

/-- Environment where alice holds 0 YES tokens and 1000 NO tokens. -/
def c9_env : NearEnv :=
  { usdc_balance := fun _ => Except.ok 0
    market_condition_id := fun _ => Except.ok (some "c1")
    position_id_for_outcome := fun c o => Except.ok (c ++ "-" ++ Nat.repr o)
    ctf_token_balance := fun _ pid => if pid = "c1-0" then Except.ok 1000 else Except.ok 0 }

/-- Alice's Sell of 1000 YES-outcome tokens. -/
def c9_sell : Order := mk_order 6 1 OrderSide.Sell OrderType.Limit 50000 1000 "alice"

/-- Bridge security configuration with a 1.5T daily cap and a 1T
single-transaction cap (whitelist disabled). -/
def c4_config : BridgeSecurityConfig :=
  { max_daily_volume := 1500000000000, max_single_transaction := 1000000000000
    verification_timeout := 1800000000000, required_confirmations := 12
    enable_whitelist := false, whitelisted_tokens := [], emergency_pause := false }

/-- Verifier state configured for chain 1 with the JavaScript client. -/
def c4_state : VerifierState :=
  { verified_bridge_txs := [], pending_bridge_requests := []
    bridge_connector_config := some
      { bridge_contract := "bridge.near", supported_chains := [1]
        javascript_client_enabled := true }
    bridge_security_config := c4_config }

/-- Cross-chain intent of 1T base units from an EVM user. -/
def c4_intent : CrossChainIntent :=
  { intent_id := "i1"
    source_user := "0xaaaaaaaaaaaaaaaaaaaaaaaaaaaaaaaaaaaaaaaa"
    source_chain_id := 1, source_token := "t", market_id := "m1"
    intent_type := IntentType.BuyShares, outcome := 1
    amount := 1000000000000, max_price := none, min_price := none
    deadline := 0, order_type := OrderType.Limit
    bridge_min_amount := 1, return_to_source := false }

/-- First bridge transaction hash. -/
def c4_tx1 : String :=
  "0x1111111111111111111111111111111111111111111111111111111111111111"

/-- Second bridge transaction hash. -/
def c4_tx2 : String :=
  "0x2222222222222222222222222222222222222222222222222222222222222222"

/-- Verifier state after the first successful verification. -/
def c4_state1 : VerifierState :=
  match verify_bridge_transaction 0 "verifier.near" c4_state c4_tx1 c4_intent with
  | Except.ok st => st
  | Except.error _ => c4_state

/-- A pending Minting trade awaiting settlement. -/
def c6_trade : Trade :=
  { dummy_trade with
    trade_id := 10
    market_id := "m1"
    condition_id := "c1"
    maker_order_id := 1
    taker_order_id := 2
    maker_account := "alice"
    taker_account := "bob"
    price := 40000
    size := 1000
    trade_type := TradeType.Minting }

/-- Trade store holding the pending Minting trade. -/
def c6_store : TradeStore := [(10, (SettlementStatus.Pending, none))]

/-- Settlement environment whose external calls all fail. -/
def c6_env_bad : SettleEnv :=
  { execute_settlement := fun _ => Except.error "chain unavailable"
    execute_direct_trade := fun _ => Except.error "chain unavailable"
    merge_positions := fun _ _ => Except.error "chain unavailable" }

/-- Settlement environment whose external calls all succeed. -/
def c6_env_ok : SettleEnv :=
  { execute_settlement := fun _ => Except.ok "tx1"
    execute_direct_trade := fun _ => Except.ok "tx1"
    merge_positions := fun _ _ => Except.ok "tx1" }


/-- YES-outcome book before Carol's FOK submit (holds Alice's resting ask). -/
def seed4_pre_yes_book : OrderBook :=
  (((alGetS seed4_run_alice.1.orderbooks "m1").getD []).find?
    (fun e => e.1 = 1)).elim OrderBook.new (fun e => e.2)

/-- Reservation row written by admitting `c9_sell` (1000 token units). -/
def c9_post_reservation : CollateralReservation :=
  { reservation_id := 0, account_id := "alice", market_id := "m1"
    order_id := 0, reserved_amount := 1000, max_loss := 1000
    side := OrderSide.Sell, price := 0, size := 1000, created_at := 0 }

/-- State after admitting `c9_sell` on top of `c9_state`. -/
def c9_state' : EngineState :=
  { c9_state with reservations := c9_state.reservations ++ [c9_post_reservation] }

deriving instance DecidableEq for Except



/-- Book holding a single resting Sell YES 300 @ 50000 (price-semantics
witness input). -/
def c1w_book : OrderBook := OrderBook.new.add_order alice_sell_yes

/-- Incoming Buy taker for the price-semantics witness. -/
def c1w_taker : Order := mk_order 3 1 OrderSide.Buy OrderType.Limit 50000 500 "carol"

/-- Result of one `execute_match` step of the witness. -/
def c1w_run : Order × Option Trade × OrderBook :=
  c1w_book.execute_match 0 c1w_taker 50000 OrderSide.Sell

/-- Trade emitted by the witness match step. -/
def c1w_tr : Trade := c1w_run.2.1.getD dummy_trade

/-- Result of a concrete complementary mint-trade creation (Bob taker,
Alice maker). -/
def c1w_mint_run : Except String (Trade × Order × Order) :=
  create_complementary_mint_trade_validated_mutable 0 bob_buy_no alice_buy_yes 1000

/-- Components of the concrete mint-trade creation. -/
def c1w_mint_out : Trade × Order × Order :=
  match c1w_mint_run with
  | Except.ok r => r
  | Except.error _ => (dummy_trade, bob_buy_no, alice_buy_yes)


/-- A DirectMatch trade used by the flush-ordering witness. -/
def c7w_direct : Trade :=
  { dummy_trade with
    trade_id := 11
    condition_id := "c1"
    trade_type := TradeType.DirectMatch }

/-- A Burning trade used by the flush-ordering witness. -/
def c7w_burn : Trade :=
  { dummy_trade with
    trade_id := 12
    condition_id := "c2"
    trade_type := TradeType.Burning }

/-- A Minting trade used by the flush-ordering witness. -/
def c7w_mint : Trade :=
  { dummy_trade with
    trade_id := 13
    condition_id := "c1"
    trade_type := TradeType.Minting }

/-- Mixed-type trade batch (out of order) for the flush-ordering
witness. -/
def c7w_list : List (Trade × Nat) := [(c7w_burn, 3), (c7w_mint, 1), (c7w_direct, 2)]

/-! Support lemmas shared by the claim theorems. -/

/-- A successful `alGet` lookup exhibits membership of the binding. -/
theorem alGet_mem {α : Type} {m : List (Nat × α)} {k : Nat} {v : α}
    (h : alGet m k = some v) : (k, v) ∈ m := by
  unfold alGet at h
  cases hf : m.find? (fun e => e.1 = k) with
  | none => rw [hf] at h; cases h
  | some e =>
    rw [hf] at h
    cases h
    have hm := List.mem_of_find?_eq_some hf
    have hp := List.find?_some hf
    obtain ⟨k', v'⟩ := e
    have hk : k' = k := by simpa using hp
    subst hk
    exact hm

/-- A successful `alGetS` lookup exhibits membership of the binding. -/
theorem alGetS_mem {α : Type} {m : List (String × α)} {k : String} {v : α}
    (h : alGetS m k = some v) : (k, v) ∈ m := by
  unfold alGetS at h
  cases hf : m.find? (fun e => e.1 = k) with
  | none => rw [hf] at h; cases h
  | some e =>
    rw [hf] at h
    cases h
    have hm := List.mem_of_find?_eq_some hf
    have hp := List.find?_some hf
    obtain ⟨k', v'⟩ := e
    have hk : k' = k := by simpa using hp
    subst hk
    exact hm

/-- Membership after an `alPutS` update: either the new binding or an
old one. -/
theorem mem_alPutS {α : Type} {m : List (String × α)} {k : String} {v : α}
    {e : String × α} (h : e ∈ alPutS m k v) : e = (k, v) ∨ e ∈ m := by
  induction m with
  | nil =>
    simp only [alPutS] at h
    left
    simpa using h
  | cons hd tl ih =>
    simp only [alPutS] at h
    by_cases hk : hd.1 = k
    · rw [if_pos hk] at h
      rcases List.mem_cons.mp h with h' | h'
      · left; exact h'
      · right; exact List.mem_cons_of_mem _ h'
    · rw [if_neg hk] at h
      rcases List.mem_cons.mp h with h' | h'
      · right; exact h' ▸ List.mem_cons_self _ _
      · rcases ih h' with h'' | h''
        · left; exact h''
        · right; exact List.mem_cons_of_mem _ h''

/-! Claim theorems. -/

/-- C5 counterexample: cancelling the already-Cancelled order 7 a second
time returns an error (not the existing Cancelled state with no error),
refuting the claim at this concrete input. -/
theorem c5_counterexample :
    (execute_order_cancellation_transaction c5_state 7 "dave").2 =
      Except.error "Cannot cancel order in status" ∧
    (∀ b : Bool, (execute_order_cancellation_transaction c5_state 7 "dave").2 ≠
      Except.ok b) ∧
    cancelled_order.status = OrderStatus.Cancelled ∧
    cancelled_order.user_account = "dave" := by
  refine ⟨by decide, ?_, by decide, by decide⟩
  intro b
  cases b <;> decide

/-- C5 (amended): a second cancel by the owner of an order already in
status Cancelled is rejected with the error "Cannot cancel order in
status" and performs no state change; it does not return an ok result. -/
theorem c5_double_cancel_amended (st : EngineState) (oid : Nat) (user : String)
    (o : Order) (hget : alGet st.db_orders oid = some o)
    (howner : o.user_account = user)
    (hstatus : o.status = OrderStatus.Cancelled) :
    execute_order_cancellation_transaction st oid user =
      (st, Except.error "Cannot cancel order in status") := by
  simp [execute_order_cancellation_transaction, hget, howner, hstatus]

/-- C5 witness: the amended theorem applied to the concrete
double-cancel state. -/
theorem c5_witness :
    execute_order_cancellation_transaction c5_state 7 "dave" =
      (c5_state, Except.error "Cannot cancel order in status") :=
  c5_double_cancel_amended c5_state 7 "dave" cancelled_order (by decide)
    (by decide) (by decide)

/-- C10: cancelling an order whose (market, outcome) has no in-memory
order book returns an error and leaves the state unchanged: the order is
not set to Cancelled and no reservation is released. -/
theorem c10_cancel_without_book (st : EngineState) (oid : Nat) (user : String)
    (o : Order) (hget : alGet st.db_orders oid = some o)
    (hbook : (alGetS st.orderbooks o.market_id).bind
      (fun m => alGet m o.outcome) = none) :
    (execute_order_cancellation_transaction st oid user).1 = st ∧
    ∃ e, (execute_order_cancellation_transaction st oid user).2 =
      Except.error e := by
  simp only [execute_order_cancellation_transaction, hget]
  by_cases howner : o.user_account ≠ user
  · rw [if_pos howner]
    exact ⟨by trivial, _, by trivial⟩
  · rw [if_neg howner]
    by_cases hstatus : ¬(o.status = OrderStatus.Pending ∨
        o.status = OrderStatus.PartiallyFilled)
    · rw [if_pos hstatus]
      exact ⟨by trivial, _, by trivial⟩
    · rw [if_neg hstatus]
      cases hmk : alGetS st.orderbooks o.market_id with
      | none =>
        simp only [hmk]
        exact ⟨by trivial, _, by trivial⟩
      | some mobs =>
        rw [hmk] at hbook
        simp at hbook
        simp only [hmk, hbook]
        exact ⟨by trivial, _, by trivial⟩

/-- C10 witness: the theorem applied to the concrete state holding
order 9 with no order books. -/
theorem c10_witness :
    (execute_order_cancellation_transaction c10_state 9 "dave").1 = c10_state ∧
    ∃ e, (execute_order_cancellation_transaction c10_state 9 "dave").2 =
      Except.error e :=
  c10_cancel_without_book c10_state 9 "dave" c10_order (by decide) (by decide)

/-- C4: the code never enforces the per-user daily volume cap.  Two
verifications whose combined amount exceeds the configured
`max_daily_volume` both succeed, and `update_daily_volume_tracking`
returns the state unchanged (it is, moreover, never invoked by
`verify_bridge_transaction`). -/
theorem c4_daily_volume_not_enforced :
    (verify_bridge_transaction 0 "verifier.near" c4_state c4_tx1 c4_intent).isOk
      = true ∧
    (verify_bridge_transaction 0 "verifier.near" c4_state1 c4_tx2 c4_intent).isOk
      = true ∧
    c4_config.max_daily_volume < c4_intent.amount + c4_intent.amount ∧
    (∀ ts : Nat, ∀ st : VerifierState, ∀ intent : CrossChainIntent,
      update_daily_volume_tracking ts st intent = Except.ok st) :=
  ⟨by decide, by decide, by decide, fun _ _ _ => rfl⟩

/-- C6: when the collateral manager's settlement call fails, the trades
of the bucket are left in Settling — they are never transitioned to
Failed (the success path does transition them to Settled with the tx
reference). -/
theorem c6_failed_settlement_left_settling :
    alGet (settle_minting_trades_ordered c6_env_bad c6_store [(c6_trade, 1)]).1 10
      = some (SettlementStatus.Settling, none) ∧
    SettlementStatus.Settling ≠ SettlementStatus.Failed ∧
    alGet (settle_minting_trades_ordered c6_env_ok c6_store [(c6_trade, 1)]).1 10
      = some (SettlementStatus.Settled, some "tx1") :=
  ⟨by decide, by decide, by decide⟩

/-- C2: seed scenario 4 (resting Sell YES 300 @ 50000, incoming FOK Buy
YES 500 @ 50000).  The submit path rests every unmatched limit order
twice, so the FOK finds 600 units of phantom liquidity, emits two trades
(sizes 300 and 200) instead of zero, and consumes the resting maker (its
ask level is gone afterwards), contradicting the required zero trades
and zero state change. -/
theorem c2_fok_counterexample :
    seed4_trades.map (fun t : Trade => (t.price, t.size)) =
      [(50000, 300), (50000, 200)] ∧
    seed4_trades ≠ [] ∧
    (alGet seed4_pre_yes_book.ask_orders 50000).isSome = true ∧
    alGet seed4_yes_book.ask_orders 50000 = none ∧
    alice_sell_yes.original_size = 300 ∧
    (seed4_trades.map (fun t : Trade => t.size)).sum = 500 :=
  ⟨by decide, by decide, by decide, by decide, by decide, by decide⟩

/-- C1 counterexample: in seed scenario 3 the single Minting trade
carries price 40000 (the taker Bob's price), not 60000 (the resting
maker Alice's price), refuting the claim that every trade's price equals
the maker's price. -/
theorem c1_counterexample :
    seed3_trades = [seed3_trade] ∧
    seed3_trade.trade_type = TradeType.Minting ∧
    seed3_trade.size = 1000 ∧
    seed3_trade.maker_order_id = alice_buy_yes.order_id ∧
    (alGet seed3_run_bob.1.db_orders 1).map (fun o : Order => o.price) =
      some 60000 ∧
    seed3_trade.price = 40000 ∧
    seed3_trade.price = bob_buy_no.price ∧
    (40000 : Nat) ≠ 60000 :=
  ⟨by decide, by decide, by decide, by decide, by decide, by decide, by decide,
    by decide⟩

/-- C8: the amount reserved at admission (remaining = original size) is
⌊price·size/100000⌋ collateral units for a Buy and exactly size
outcome-token units for a Sell. -/
theorem c8_reservation_amount (env : NearEnv) (st : EngineState) (now : Nat)
    (o : Order) (st' : EngineState)
    (hadmission : o.remaining_size = o.original_size)
    (hok : check_and_reserve_balance env st now o = Except.ok (true, st')) :
    ∃ r : CollateralReservation,
      st'.reservations = st.reservations ++ [r] ∧
      r.reserved_amount =
        (match o.side with
         | OrderSide.Buy => o.price * o.original_size / 100000
         | OrderSide.Sell => o.original_size) := by
  unfold check_and_reserve_balance at hok
  cases hq : get_real_time_market_balance env o.user_account o.market_id o.side with
  | error e => simp [hq] at hok
  | ok available =>
    simp only [hq] at hok
    by_cases hlt : available < calculate_required_balance o
    · rw [if_pos hlt] at hok
      simp at hok
    · rw [if_neg hlt] at hok
      simp only [Except.ok.injEq, Prod.mk.injEq, true_and] at hok
      subst hok
      refine ⟨{ reservation_id := 0, account_id := o.user_account
                market_id := o.market_id, order_id := 0
                reserved_amount := calculate_required_balance o
                max_loss := calculate_required_balance o, side := o.side
                price := 0, size := calculate_required_balance o
                created_at := now }, rfl, ?_⟩
      show calculate_required_balance o = _
      unfold calculate_required_balance
      cases o.side with
      | Buy => simp [hadmission, Nat.mul_comm]
      | Sell => simp [hadmission]

/-- C8 witness: admitting Alice's Buy YES 1000 @ 60000 reserves
⌊60000·1000/100000⌋ = 600 collateral units. -/
theorem c8_witness :
    ∃ r : CollateralReservation,
      c8_state'.reservations = engine_state0.reservations ++ [r] ∧
      r.reserved_amount =
        (match alice_buy_yes.side with
         | OrderSide.Buy => alice_buy_yes.price * alice_buy_yes.original_size / 100000
         | OrderSide.Sell => alice_buy_yes.original_size) :=
  c8_reservation_amount sample_env engine_state0 0 alice_buy_yes c8_state'
    (by decide) (by decide)


/-- C9 counterexample: with a prior 1000-token sell reservation stored
for alice in m1 and a combined YES+NO balance of 1000, a new Sell of
1000 is still admitted — the code does not subtract prior reservations
(its reserved-token query is hard-coded to 0), refuting the claim's
"minus prior reservations" at this concrete input. -/
theorem c9_counterexample :
    check_and_reserve_balance c9_env c9_state 0 c9_sell =
      Except.ok (true, c9_state') ∧
    get_user_outcome_token_balance c9_env "alice" "m1" = Except.ok 1000 ∧
    spec_prior_reserved_tokens c9_state "alice" "m1" = 1000 ∧
    c9_sell.remaining_size = 1000 ∧
    1000 - spec_prior_reserved_tokens c9_state "alice" "m1" <
      c9_sell.remaining_size :=
  ⟨by decide, by decide, by decide, by decide, by decide⟩

/-- C9 (amended): the sell-side admission check compares the required
size against the user's combined YES-plus-NO outcome-token balance for
the market, minus the reserved-token query — which is hard-coded to 0,
so prior reservations are not actually subtracted; a Sell on one
outcome is admitted against holdings of the other outcome. -/
theorem c9_sell_balance_check_amended :
    (∀ (env : NearEnv) (account market cid : String) (yes no : Nat),
      env.market_condition_id market = Except.ok (some cid) →
      get_token_balance_with_retry env account cid 1 = Except.ok yes →
      get_token_balance_with_retry env account cid 0 = Except.ok no →
      get_user_outcome_token_balance env account market = Except.ok (yes + no)) ∧
    (∀ (env : NearEnv) (st : EngineState) (now : Nat) (o : Order) (tb : Nat),
      o.side = OrderSide.Sell →
      get_user_outcome_token_balance env o.user_account o.market_id =
        Except.ok tb →
      ((∃ st', check_and_reserve_balance env st now o = Except.ok (true, st')) ↔
        o.remaining_size ≤ tb)) ∧
    (∀ account market, get_reserved_tokens_for_market account market = 0) := by
  refine ⟨?_, ?_, fun _ _ => rfl⟩
  · intro env account market cid yes no hcid hyes hno
    unfold get_user_outcome_token_balance get_condition_id_with_retry
    rw [hcid]
    simp only [hyes, hno]
  · intro env st now o tb hside htb
    unfold check_and_reserve_balance get_real_time_market_balance
      calculate_required_balance
    rw [hside]
    simp only [htb, get_reserved_tokens_for_market, Nat.sub_zero]
    constructor
    · rintro ⟨st', h⟩
      by_cases hlt : tb < o.remaining_size
      · rw [if_pos hlt] at h
        simp at h
      · exact Nat.not_lt.mp hlt
    · intro hle
      rw [if_neg (Nat.not_lt.mpr hle)]
      exact ⟨_, rfl⟩

/-- C9 witness: the amended theorem admits alice's Sell of 1000 YES
tokens against her 0 YES + 1000 NO holdings. -/
theorem c9_witness :
    ∃ st', check_and_reserve_balance c9_env engine_state0 0 c9_sell =
      Except.ok (true, st') :=
  (c9_sell_balance_check_amended.2.1 c9_env engine_state0 0 c9_sell 1000
    (by decide) (by decide)).mpr (by decide)


/-- A successful `get_orders_by_price_and_side` lookup is the head of
the side's queue at that price. -/
theorem get_orders_head {b : OrderBook} {price : Nat} {side : OrderSide} {o : Order}
    (h : b.get_orders_by_price_and_side price side = some o) :
    ∃ rest, side_queue b side price = some (o :: rest) := by
  unfold OrderBook.get_orders_by_price_and_side at h
  unfold side_queue
  cases side with
  | Buy =>
    simp only at h ⊢
    cases hq : alGet b.bid_orders price with
    | none => simp [hq] at h
    | some os =>
      simp only [hq] at h
      cases os with
      | nil => cases h
      | cons o2 rest =>
        simp only [Option.some.injEq] at h
        subst h
        exact ⟨rest, rfl⟩
  | Sell =>
    simp only at h ⊢
    cases hq : alGet b.ask_orders price with
    | none => simp [hq] at h
    | some os =>
      simp only [hq] at h
      cases os with
      | nil => cases h
      | cons o2 rest =>
        simp only [Option.some.injEq] at h
        subst h
        exact ⟨rest, rfl⟩

/-- C3: every trade emitted by the complementary-matching step of a
priced limit-family order comes from the opposite outcome's book, from
a same-side maker found at exactly complement_price = 100000 − price
that is Pending or PartiallyFilled and not expired; its size is
min(taker remaining, maker remaining), it is a Minting trade, and
taker.price + maker.price ≤ 100000. -/
theorem c3_complementary_match_scope (st : EngineState)
    (mobs : List (Nat × OrderBook)) (now : Nat) (incoming : Order)
    (trades : List Trade) (taker' : Order) (mobs' : List (Nat × OrderBook))
    (st' : EngineState) (tr : Trade)
    (hwf : ∀ e ∈ mobs, book_queues_wf e.2)
    (h : check_complementary_matches_mutable st mobs now incoming =
      Except.ok (trades, taker', mobs', st'))
    (htr : tr ∈ trades) :
    (incoming.order_type = OrderType.Limit ∨ incoming.order_type = OrderType.GTC ∨
     incoming.order_type = OrderType.GTD ∨ incoming.order_type = OrderType.FOK ∨
     incoming.order_type = OrderType.FAK) ∧
    incoming.price ≠ 0 ∧
    ∃ cbook maker,
      alGet mobs (if incoming.outcome = 1 then 0 else 1) = some cbook ∧
      cbook.get_orders_by_price_and_side (100000 - incoming.price) incoming.side
        = some maker ∧
      maker.side = incoming.side ∧
      maker.price = 100000 - incoming.price ∧
      (maker.status = OrderStatus.Pending ∨
       maker.status = OrderStatus.PartiallyFilled) ∧
      (∀ t, maker.expires_at = some t → now ≤ t) ∧
      tr.size = min incoming.remaining_size maker.remaining_size ∧
      tr.trade_type = TradeType.Minting ∧
      incoming.price + maker.price ≤ 100000 := by
  unfold check_complementary_matches_mutable at h
  have hlimit : (incoming.order_type = OrderType.Limit ∨
      incoming.order_type = OrderType.GTC ∨ incoming.order_type = OrderType.GTD ∨
      incoming.order_type = OrderType.FOK ∨ incoming.order_type = OrderType.FAK) := by
    cases hot : incoming.order_type <;> simp [hot] at h ⊢
    case Market =>
      rcases h with ⟨h1, _⟩
      subst h1
      cases htr
  have hlimit_red :
      (match incoming.order_type with
        | OrderType.Limit | OrderType.GTC | OrderType.GTD
        | OrderType.FOK | OrderType.FAK => true
        | OrderType.Market => false) = true := by
    rcases hlimit with h1 | h1 | h1 | h1 | h1 <;> rw [h1]
  rw [hlimit_red] at h
  simp only [if_neg (by simp : ¬(true = false))] at h
  by_cases hp0 : incoming.price = 0
  · rw [if_pos hp0] at h
    simp only [Except.ok.injEq, Prod.mk.injEq] at h
    rcases h with ⟨h1, _⟩
    subst h1
    cases htr
  rw [if_neg hp0] at h
  refine ⟨hlimit, hp0, ?_⟩
  unfold execute_complementary_match_transaction_mutable at h
  by_cases hbig : incoming.price > 99999
  · simp [calculate_complement_price, hbig] at h
  have hcp : calculate_complement_price incoming.price =
      Except.ok (100000 - incoming.price) := by
    unfold calculate_complement_price
    rw [if_neg hbig, if_neg hp0]
  rw [hcp] at h
  simp only at h
  cases hcb : alGet mobs (if incoming.outcome = 1 then 0 else 1) with
  | none =>
    rw [hcb] at h
    simp only [Except.ok.injEq, Prod.mk.injEq] at h
    rcases h with ⟨h1, _⟩
    subst h1
    cases htr
  | some cbook =>
    rw [hcb] at h
    simp only at h
    cases hfv : find_and_validate_complementary_order cbook now
        (100000 - incoming.price) incoming.side incoming.remaining_size with
    | none =>
      rw [hfv] at h
      simp only [Except.ok.injEq, Prod.mk.injEq] at h
      rcases h with ⟨h1, _⟩
      subst h1
      cases htr
    | some mv =>
      rw [hfv] at h
      obtain ⟨maker, vsize⟩ := mv
      simp only at h
      cases hcr : create_complementary_mint_trade_validated_mutable now incoming
          maker vsize with
      | error e =>
        rw [hcr] at h
        cases h
      | ok tmm =>
        rw [hcr] at h
        obtain ⟨trade, taker2, maker2⟩ := tmm
        simp only [Except.ok.injEq, Prod.mk.injEq] at h
        rcases h with ⟨h1, _⟩
        subst h1
        have htreq : tr = trade := by simpa using htr
        subst htreq
        -- unpack the finder
        unfold find_and_validate_complementary_order at hfv
        cases hg : cbook.get_orders_by_price_and_side (100000 - incoming.price)
            incoming.side with
        | none => simp [hg] at hfv
        | some o =>
          simp only [hg] at hfv
          by_cases hstat : o.status = OrderStatus.Pending ∨
              o.status = OrderStatus.PartiallyFilled
          swap
          · rw [if_neg hstat] at hfv; cases hfv
          rw [if_pos hstat] at hfv
          by_cases hexp : (match o.expires_at with
            | some t => decide (now > t)
            | none => false) = true
          · rw [if_pos hexp] at hfv; cases hfv
          · rw [if_neg hexp] at hfv
            by_cases hz : min incoming.remaining_size o.remaining_size = 0
            · rw [if_pos hz] at hfv; cases hfv
            · rw [if_neg hz] at hfv
              simp only [Option.some.injEq, Prod.mk.injEq] at hfv
              rcases hfv with ⟨ho, hv⟩
              subst ho
              subst hv
              -- maker side and price from the queue well-formedness
              have hwfc : book_queues_wf cbook := hwf _ (alGet_mem hcb)
              obtain ⟨rest, hqq⟩ := get_orders_head hg
              have hmaker_facts : o.price = 100000 - incoming.price ∧
                  o.side = incoming.side := by
                cases hside : incoming.side
                · rw [hside] at hqq
                  simp only [side_queue] at hqq
                  have hmem := alGet_mem hqq
                  have hv2 := hwfc.1 _ hmem o (List.mem_cons_self _ _)
                  exact ⟨hv2.1, hv2.2⟩
                · rw [hside] at hqq
                  simp only [side_queue] at hqq
                  have hmem := alGet_mem hqq
                  have hv2 := hwfc.2 _ hmem o (List.mem_cons_self _ _)
                  exact ⟨hv2.1, hv2.2⟩
              -- price sum from the create-step guard
              unfold create_complementary_mint_trade_validated_mutable at hcr
              by_cases hz2 : incoming.remaining_size ⊓ o.remaining_size = 0
              · rw [if_pos hz2] at hcr; cases hcr
              · rw [if_neg hz2] at hcr
                by_cases hcap : incoming.remaining_size ⊓ o.remaining_size >
                    incoming.remaining_size ∨
                    incoming.remaining_size ⊓ o.remaining_size > o.remaining_size
                · rw [if_pos hcap] at hcr; cases hcr
                · rw [if_neg hcap] at hcr
                  by_cases hsum : incoming.price + o.price > 100000
                  · rw [if_pos hsum] at hcr; cases hcr
                  · rw [if_neg hsum] at hcr
                    simp only [Except.ok.injEq, Prod.mk.injEq] at hcr
                    rcases hcr with ⟨hcr1, _⟩
                    refine ⟨cbook, o, rfl, hg, hmaker_facts.2, hmaker_facts.1,
                      hstat, ?_, ?_, ?_, ?_⟩
                    · intro t ht
                      rw [ht] at hexp
                      simp only [decide_eq_true_eq] at hexp
                      exact Nat.not_lt.mp hexp
                    · rw [← hcr1]
                    · rw [← hcr1]
                    · exact Nat.not_lt.mp hsum


/-- C3 witness: the scope theorem applied to Bob's Buy NO 1000 @ 40000
against the YES book holding Alice's Buy YES 1000 @ 60000. -/
theorem c3_witness :
    (bob_buy_no.order_type = OrderType.Limit ∨
     bob_buy_no.order_type = OrderType.GTC ∨
     bob_buy_no.order_type = OrderType.GTD ∨
     bob_buy_no.order_type = OrderType.FOK ∨
     bob_buy_no.order_type = OrderType.FAK) ∧
    bob_buy_no.price ≠ 0 ∧
    ∃ cbook maker,
      alGet c3_mobs (if bob_buy_no.outcome = 1 then 0 else 1) = some cbook ∧
      cbook.get_orders_by_price_and_side (100000 - bob_buy_no.price)
        bob_buy_no.side = some maker ∧
      maker.side = bob_buy_no.side ∧
      maker.price = 100000 - bob_buy_no.price ∧
      (maker.status = OrderStatus.Pending ∨
       maker.status = OrderStatus.PartiallyFilled) ∧
      (∀ t, maker.expires_at = some t → 0 ≤ t) ∧
      c3_tr.size = min bob_buy_no.remaining_size maker.remaining_size ∧
      c3_tr.trade_type = TradeType.Minting ∧
      bob_buy_no.price + maker.price ≤ 100000 :=
  c3_complementary_match_scope engine_state0 c3_mobs 0 bob_buy_no c3_out.1
    c3_out.2.1 c3_out.2.2.1 c3_out.2.2.2 c3_tr (by decide) (by decide) (by decide)

/-- C1 (amended): a trade struck by regular order-book matching carries
the maker level's price, which equals the maker order's own price under
queue well-formedness; a trade produced by complementary matching
instead carries the taker's price; in seed scenario 3 the single Minting
trade carries price 40000 (Bob the taker's price), not 60000. -/
theorem c1_trade_price_semantics :
    (∀ (b : OrderBook) (now : Nat) (taker : Order) (mp : Nat) (ms : OrderSide)
       (taker' : Order) (tr : Trade) (b' : OrderBook),
      book_queues_wf (b.remove_expired_orders_at_price now mp ms) →
      b.execute_match now taker mp ms = (taker', some tr, b') →
      ∃ maker rest,
        side_queue (b.remove_expired_orders_at_price now mp ms) ms mp =
          some (maker :: rest) ∧
        tr.maker_order_id = maker.order_id ∧ tr.price = mp ∧
        tr.price = maker.price) ∧
    (∀ (now : Nat) (taker maker : Order) (s : Nat) (tr : Trade) (t' m' : Order),
      create_complementary_mint_trade_validated_mutable now taker maker s =
        Except.ok (tr, t', m') → tr.price = taker.price) ∧
    (seed3_trade.price = bob_buy_no.price ∧ seed3_trade.price = 40000 ∧
     seed3_trade.price ≠ alice_buy_yes.price) := by
  refine ⟨?_, ?_, by decide, by decide, by decide⟩
  · intro b now taker mp ms taker' tr b' hwf h
    simp only [OrderBook.execute_match] at h
    cases ms with
    | Buy =>
      simp only at h
      split at h
      · simp at h
      · simp at h
      · rename_i maker rest heq
        split at h
        · simp at h
        · simp only [Prod.mk.injEq, Option.some.injEq] at h
          rcases h with ⟨_, htr, _⟩
          have hmp : maker.price = mp :=
            (hwf.1 _ (alGet_mem heq) maker (List.mem_cons_self _ _)).1
          refine ⟨maker, rest, by simp [side_queue, heq], ?_, ?_, ?_⟩
          · rw [← htr]
          · rw [← htr]
          · rw [← htr, hmp]
    | Sell =>
      simp only at h
      split at h
      · simp at h
      · simp at h
      · rename_i maker rest heq
        split at h
        · simp at h
        · simp only [Prod.mk.injEq, Option.some.injEq] at h
          rcases h with ⟨_, htr, _⟩
          have hmp : maker.price = mp :=
            (hwf.2 _ (alGet_mem heq) maker (List.mem_cons_self _ _)).1
          refine ⟨maker, rest, by simp [side_queue, heq], ?_, ?_, ?_⟩
          · rw [← htr]
          · rw [← htr]
          · rw [← htr, hmp]
  · intro now taker maker s tr t' m' h
    unfold create_complementary_mint_trade_validated_mutable at h
    by_cases h0 : s = 0
    · rw [if_pos h0] at h
      cases h
    · rw [if_neg h0] at h
      by_cases hcap : s > taker.remaining_size ∨ s > maker.remaining_size
      · rw [if_pos hcap] at h
        cases h
      · rw [if_neg hcap] at h
        by_cases hsum : taker.price + maker.price > 100000
        · rw [if_pos hsum] at h
          cases h
        · rw [if_neg hsum] at h
          simp only [Except.ok.injEq, Prod.mk.injEq] at h
          rcases h with ⟨htr, _⟩
          rw [← htr]

/-- C1 witness: the amended theorem applied to a concrete direct match
(trade at the maker level price 50000) and to the concrete
complementary mint creation (trade at Bob the taker's price). -/
theorem c1_witness :
    (∃ maker rest,
      side_queue (c1w_book.remove_expired_orders_at_price 0 50000 OrderSide.Sell)
        OrderSide.Sell 50000 = some (maker :: rest) ∧
      c1w_tr.maker_order_id = maker.order_id ∧ c1w_tr.price = 50000 ∧
      c1w_tr.price = maker.price) ∧
    c1w_mint_out.1.price = bob_buy_no.price :=
  ⟨c1_trade_price_semantics.1 c1w_book 0 c1w_taker 50000 OrderSide.Sell
      c1w_run.1 c1w_tr c1w_run.2.2 (by decide) (by decide),
   c1_trade_price_semantics.2.1 0 bob_buy_no alice_buy_yes 1000 c1w_mint_out.1
      c1w_mint_out.2.1 c1w_mint_out.2.2 (by decide)⟩

theorem settle_direct_trace (env : SettleEnv) (store : TradeStore)
    (l : List (Trade × Nat)) :
    (settle_direct_matches_ordered env store l).2 = sort_by_sequence l := rfl

theorem foldl_pair_trace {σ β γ : Type} (g : σ → β → σ) (f : β → γ) :
    ∀ (bs : List β) (st : σ) (acc : List γ),
    (bs.foldl (fun p b => (g p.1 b, p.2 ++ [f b])) (st, acc)).2 =
      acc ++ bs.map f := by
  intro bs
  induction bs with
  | nil => intro st acc; simp
  | cons b bs ih =>
    intro st acc
    rw [List.foldl_cons]
    show (bs.foldl (fun p b => (g p.1 b, p.2 ++ [f b]))
      (g st b, acc ++ [f b])).2 = acc ++ (b :: bs).map f
    rw [ih]
    simp

theorem settle_minting_trace (env : SettleEnv) (store : TradeStore)
    (l : List (Trade × Nat)) :
    (settle_minting_trades_ordered env store l).2 =
      (group_by_condition l).map (fun b => (b.1, sort_by_sequence b.2)) := by
  have h := foldl_pair_trace (fun st (b : String × List (Trade × Nat)) =>
    (execute_minting_settlement_transaction env st b.1
      ((sort_by_sequence b.2).map (fun tn => tn.1))).1)
    (fun b => (b.1, sort_by_sequence b.2)) (group_by_condition l) store []
  rw [List.nil_append] at h
  exact h

theorem settle_burning_trace (env : SettleEnv) (store : TradeStore)
    (l : List (Trade × Nat)) :
    (settle_burning_trades_ordered env store l).2 =
      (group_by_condition l).map (fun b => (b.1, sort_by_sequence b.2)) := by
  have h := foldl_pair_trace (fun st (b : String × List (Trade × Nat)) =>
    (execute_burning_settlement_transaction env st b.1
      ((sort_by_sequence b.2).map (fun tn => tn.1))).1)
    (fun b => (b.1, sort_by_sequence b.2)) (group_by_condition l) store []
  rw [List.nil_append] at h
  exact h

theorem group_by_condition_fold_spec (P : Trade × Nat → Prop) :
    ∀ (xs : List (Trade × Nat)) (acc : List (String × List (Trade × Nat))),
    (∀ e ∈ acc, ∀ tn ∈ e.2, P tn ∧ tn.1.condition_id = e.1) →
    (∀ x ∈ xs, P x) →
    ∀ e ∈ xs.foldl (fun acc tn =>
      match alGetS acc tn.1.condition_id with
      | some g => alPutS acc tn.1.condition_id (g ++ [tn])
      | none => acc ++ [(tn.1.condition_id, [tn])]) acc,
    ∀ tn ∈ e.2, P tn ∧ tn.1.condition_id = e.1 := by
  intro xs
  induction xs with
  | nil =>
    intro acc hacc _ e he
    exact hacc e he
  | cons x xs ih =>
    intro acc hacc hxs
    rw [List.foldl_cons]
    apply ih
    · intro e he tn htn
      cases hg : alGetS acc x.1.condition_id with
      | some g =>
        simp only [hg] at he
        rcases mem_alPutS he with he' | he'
        · subst he'
          simp only at htn
          rcases List.mem_append.mp htn with h1 | h1
          · exact hacc _ (alGetS_mem hg) tn h1
          · have hx : tn = x := by simpa using h1
            subst hx
            exact ⟨hxs tn (List.mem_cons_self _ _), rfl⟩
        · exact hacc e he' tn htn
      | none =>
        simp only [hg] at he
        rcases List.mem_append.mp he with he' | he'
        · exact hacc e he' tn htn
        · have hx : e = (x.1.condition_id, [x]) := by simpa using he'
          subst hx
          have hx2 : tn = x := by simpa using htn
          subst hx2
          exact ⟨hxs tn (List.mem_cons_self _ _), rfl⟩
    · intro x' hx'
      exact hxs x' (List.mem_cons_of_mem _ hx')

theorem group_by_condition_spec (l : List (Trade × Nat)) :
    ∀ e ∈ group_by_condition l, ∀ tn ∈ e.2, tn ∈ l ∧ tn.1.condition_id = e.1 := by
  unfold group_by_condition
  exact group_by_condition_fold_spec (fun tn => tn ∈ l) l []
    (by intro e he; cases he) (fun x h => h)

theorem batch_minting_buckets (env : SettleEnv) (store : TradeStore)
    (l : List (Trade × Nat)) :
    (settle_trades_batch_ordered env store l).2.1 =
      (group_by_condition ((sort_by_sequence l).filter
        (fun tn => tn.1.trade_type = TradeType.Minting))).map
        (fun b => (b.1, sort_by_sequence b.2)) := by
  unfold settle_trades_batch_ordered
  by_cases h0 : l.isEmpty
  · rw [if_pos h0]
    have hl : l = [] := List.isEmpty_iff.mp h0
    subst hl
    rfl
  · rw [if_neg h0]
    show (if ((sort_by_sequence l).filter
        (fun tn => tn.1.trade_type = TradeType.Minting)).isEmpty then
        (store, ([] : List (String × List (Trade × Nat))))
      else settle_minting_trades_ordered env store ((sort_by_sequence l).filter
        (fun tn => tn.1.trade_type = TradeType.Minting))).2 = _
    by_cases h1 : ((sort_by_sequence l).filter
        (fun tn => tn.1.trade_type = TradeType.Minting)).isEmpty
    · rw [if_pos h1]
      rw [List.isEmpty_iff.mp h1]
      rfl
    · rw [if_neg h1]
      exact settle_minting_trace env store _

theorem batch_direct_trace (env : SettleEnv) (store : TradeStore)
    (l : List (Trade × Nat)) :
    (settle_trades_batch_ordered env store l).2.2.1 =
      sort_by_sequence ((sort_by_sequence l).filter
        (fun tn => tn.1.trade_type = TradeType.DirectMatch)) := by
  unfold settle_trades_batch_ordered
  by_cases h0 : l.isEmpty
  · rw [if_pos h0]
    have hl : l = [] := List.isEmpty_iff.mp h0
    subst hl
    rfl
  · rw [if_neg h0]
    show (if ((sort_by_sequence l).filter
        (fun tn => tn.1.trade_type = TradeType.DirectMatch)).isEmpty then
        ((if ((sort_by_sequence l).filter
            (fun tn => tn.1.trade_type = TradeType.Minting)).isEmpty then
            (store, ([] : List (String × List (Trade × Nat))))
          else settle_minting_trades_ordered env store ((sort_by_sequence l).filter
            (fun tn => tn.1.trade_type = TradeType.Minting))).1,
         ([] : List (Trade × Nat)))
      else settle_direct_matches_ordered env
        (if ((sort_by_sequence l).filter
            (fun tn => tn.1.trade_type = TradeType.Minting)).isEmpty then
            (store, ([] : List (String × List (Trade × Nat))))
          else settle_minting_trades_ordered env store ((sort_by_sequence l).filter
            (fun tn => tn.1.trade_type = TradeType.Minting))).1
        ((sort_by_sequence l).filter
          (fun tn => tn.1.trade_type = TradeType.DirectMatch))).2 = _
    by_cases h1 : ((sort_by_sequence l).filter
        (fun tn => tn.1.trade_type = TradeType.DirectMatch)).isEmpty
    · rw [if_pos h1]
      rw [List.isEmpty_iff.mp h1]
      rfl
    · rw [if_neg h1]
      exact settle_direct_trace env _ _


theorem batch_burning_buckets (env : SettleEnv) (store : TradeStore)
    (l : List (Trade × Nat)) :
    (settle_trades_batch_ordered env store l).2.2.2 =
      (group_by_condition ((sort_by_sequence l).filter
        (fun tn => tn.1.trade_type = TradeType.Burning))).map
        (fun b => (b.1, sort_by_sequence b.2)) := by
  unfold settle_trades_batch_ordered
  by_cases h0 : l.isEmpty
  · rw [if_pos h0]
    have hl : l = [] := List.isEmpty_iff.mp h0
    subst hl
    rfl
  · rw [if_neg h0]
    show (if ((sort_by_sequence l).filter
        (fun tn => tn.1.trade_type = TradeType.Burning)).isEmpty then
        ((if ((sort_by_sequence l).filter
            (fun tn => tn.1.trade_type = TradeType.DirectMatch)).isEmpty then
            ((if ((sort_by_sequence l).filter
                (fun tn => tn.1.trade_type = TradeType.Minting)).isEmpty then
                (store, ([] : List (String × List (Trade × Nat))))
              else settle_minting_trades_ordered env store
                ((sort_by_sequence l).filter
                  (fun tn => tn.1.trade_type = TradeType.Minting))).1,
             ([] : List (Trade × Nat)))
          else settle_direct_matches_ordered env
            (if ((sort_by_sequence l).filter
                (fun tn => tn.1.trade_type = TradeType.Minting)).isEmpty then
                (store, ([] : List (String × List (Trade × Nat))))
              else settle_minting_trades_ordered env store
                ((sort_by_sequence l).filter
                  (fun tn => tn.1.trade_type = TradeType.Minting))).1
            ((sort_by_sequence l).filter
              (fun tn => tn.1.trade_type = TradeType.DirectMatch))).1,
         ([] : List (String × List (Trade × Nat))))
      else settle_burning_trades_ordered env
        (if ((sort_by_sequence l).filter
            (fun tn => tn.1.trade_type = TradeType.DirectMatch)).isEmpty then
            ((if ((sort_by_sequence l).filter
                (fun tn => tn.1.trade_type = TradeType.Minting)).isEmpty then
                (store, ([] : List (String × List (Trade × Nat))))
              else settle_minting_trades_ordered env store
                ((sort_by_sequence l).filter
                  (fun tn => tn.1.trade_type = TradeType.Minting))).1,
             ([] : List (Trade × Nat)))
          else settle_direct_matches_ordered env
            (if ((sort_by_sequence l).filter
                (fun tn => tn.1.trade_type = TradeType.Minting)).isEmpty then
                (store, ([] : List (String × List (Trade × Nat))))
              else settle_minting_trades_ordered env store
                ((sort_by_sequence l).filter
                  (fun tn => tn.1.trade_type = TradeType.Minting))).1
            ((sort_by_sequence l).filter
              (fun tn => tn.1.trade_type = TradeType.DirectMatch))).1
        ((sort_by_sequence l).filter
          (fun tn => tn.1.trade_type = TradeType.Burning))).2 = _
    by_cases h1 : ((sort_by_sequence l).filter
        (fun tn => tn.1.trade_type = TradeType.Burning)).isEmpty
    · rw [if_pos h1]
      rw [List.isEmpty_iff.mp h1]
      rfl
    · rw [if_neg h1]
      exact settle_burning_trace env _ _


/-- C7: in a settlement flush, the processing order runs all Minting
trades before all DirectMatch trades before all Burning trades; the
Minting and Burning phases are bucketed by condition_id; and every
bucket (and the DirectMatch stream) is processed in ascending
enqueue-sequence order, never wall-clock order (the schedule reads only
trade_type, condition_id and the sequence). -/
theorem c7_flush_ordering (env : SettleEnv) (store : TradeStore)
    (l : List (Trade × Nat)) :
    List.Pairwise (fun a b : Trade × Nat =>
      settlement_type_rank a.1.trade_type ≤ settlement_type_rank b.1.trade_type)
      (flush_processing_order env store l) ∧
    (∀ bucket ∈ (settle_trades_batch_ordered env store l).2.1,
      (∀ tn ∈ bucket.2, tn.1.trade_type = TradeType.Minting ∧
        tn.1.condition_id = bucket.1 ∧ tn ∈ l) ∧
      List.Pairwise (fun a b : Trade × Nat => a.2 ≤ b.2) bucket.2) ∧
    ((∀ tn ∈ (settle_trades_batch_ordered env store l).2.2.1,
      tn.1.trade_type = TradeType.DirectMatch ∧ tn ∈ l) ∧
     List.Pairwise (fun a b : Trade × Nat => a.2 ≤ b.2)
       (settle_trades_batch_ordered env store l).2.2.1) ∧
    (∀ bucket ∈ (settle_trades_batch_ordered env store l).2.2.2,
      (∀ tn ∈ bucket.2, tn.1.trade_type = TradeType.Burning ∧
        tn.1.condition_id = bucket.1 ∧ tn ∈ l) ∧
      List.Pairwise (fun a b : Trade × Nat => a.2 ≤ b.2) bucket.2) := by
  have hsortmem : ∀ tn : Trade × Nat, tn ∈ sort_by_sequence l → tn ∈ l := by
    intro tn h
    exact (List.perm_insertionSort _ l).mem_iff.mp h
  have hmint : ∀ bucket ∈ (settle_trades_batch_ordered env store l).2.1,
      (∀ tn ∈ bucket.2, tn.1.trade_type = TradeType.Minting ∧
        tn.1.condition_id = bucket.1 ∧ tn ∈ l) ∧
      List.Pairwise (fun a b : Trade × Nat => a.2 ≤ b.2) bucket.2 := by
    intro bucket hb
    rw [batch_minting_buckets] at hb
    rcases List.mem_map.mp hb with ⟨b0, hb0, hbeq⟩
    subst hbeq
    constructor
    · intro tn htn
      have htn' : tn ∈ b0.2 := (List.perm_insertionSort _ b0.2).mem_iff.mp htn
      have hspec := group_by_condition_spec _ b0 hb0 tn htn'
      have hfil := List.mem_filter.mp hspec.1
      refine ⟨by simpa using hfil.2, hspec.2, hsortmem tn hfil.1⟩
    · exact List.sorted_insertionSort _ b0.2
  have hdir : (∀ tn ∈ (settle_trades_batch_ordered env store l).2.2.1,
      tn.1.trade_type = TradeType.DirectMatch ∧ tn ∈ l) ∧
      List.Pairwise (fun a b : Trade × Nat => a.2 ≤ b.2)
        (settle_trades_batch_ordered env store l).2.2.1 := by
    rw [batch_direct_trace]
    constructor
    · intro tn htn
      have htn' := (List.perm_insertionSort _ _).mem_iff.mp htn
      have hfil := List.mem_filter.mp htn'
      exact ⟨by simpa using hfil.2, hsortmem tn hfil.1⟩
    · exact List.sorted_insertionSort _ _
  have hburn : ∀ bucket ∈ (settle_trades_batch_ordered env store l).2.2.2,
      (∀ tn ∈ bucket.2, tn.1.trade_type = TradeType.Burning ∧
        tn.1.condition_id = bucket.1 ∧ tn ∈ l) ∧
      List.Pairwise (fun a b : Trade × Nat => a.2 ≤ b.2) bucket.2 := by
    intro bucket hb
    rw [batch_burning_buckets] at hb
    rcases List.mem_map.mp hb with ⟨b0, hb0, hbeq⟩
    subst hbeq
    constructor
    · intro tn htn
      have htn' : tn ∈ b0.2 := (List.perm_insertionSort _ b0.2).mem_iff.mp htn
      have hspec := group_by_condition_spec _ b0 hb0 tn htn'
      have hfil := List.mem_filter.mp hspec.1
      refine ⟨by simpa using hfil.2, hspec.2, hsortmem tn hfil.1⟩
    · exact List.sorted_insertionSort _ b0.2
  refine ⟨?_, hmint, hdir, hburn⟩
  have hmintT : ∀ a ∈ ((settle_trades_batch_ordered env store l).2.1.map
      (fun b => b.2)).flatten, settlement_type_rank a.1.trade_type = 0 := by
    intro a ha
    rcases List.mem_flatten.mp ha with ⟨s, hs, has⟩
    rcases List.mem_map.mp hs with ⟨bucket, hbucket, hseq⟩
    subst hseq
    rw [((hmint bucket hbucket).1 a has).1]
    rfl
  have hdirT : ∀ a ∈ (settle_trades_batch_ordered env store l).2.2.1,
      settlement_type_rank a.1.trade_type = 1 := by
    intro a ha
    rw [(hdir.1 a ha).1]
    rfl
  have hburnT : ∀ a ∈ ((settle_trades_batch_ordered env store l).2.2.2.map
      (fun b => b.2)).flatten, settlement_type_rank a.1.trade_type = 2 := by
    intro a ha
    rcases List.mem_flatten.mp ha with ⟨s, hs, has⟩
    rcases List.mem_map.mp hs with ⟨bucket, hbucket, hseq⟩
    subst hseq
    rw [((hburn bucket hbucket).1 a has).1]
    rfl
  show List.Pairwise _
    ((((settle_trades_batch_ordered env store l).2.1.map (fun b => b.2)).flatten)
      ++ (settle_trades_batch_ordered env store l).2.2.1
      ++ (((settle_trades_batch_ordered env store l).2.2.2.map
        (fun b => b.2)).flatten))
  rw [List.pairwise_append]
  refine ⟨?_, ?_, ?_⟩
  · rw [List.pairwise_append]
    refine ⟨?_, ?_, ?_⟩
    · apply List.pairwise_of_forall_mem_list
      intro a ha b hb
      rw [hmintT a ha, hmintT b hb]
    · apply List.pairwise_of_forall_mem_list
      intro a ha b hb
      rw [hdirT a ha, hdirT b hb]
    · intro a ha b hb
      rw [hmintT a ha]
      exact Nat.zero_le _
  · apply List.pairwise_of_forall_mem_list
    intro a ha b hb
    rw [hburnT a ha, hburnT b hb]
  · intro a ha b hb
    rw [hburnT b hb]
    rcases List.mem_append.mp ha with ha' | ha'
    · rw [hmintT a ha']
      exact Nat.zero_le _
    · rw [hdirT a ha']
      exact Nat.le_succ 1


/-- C7 witness: the flush-ordering theorem applied to a concrete
mixed-type batch. -/
theorem c7_witness :
    List.Pairwise (fun a b : Trade × Nat =>
      settlement_type_rank a.1.trade_type ≤ settlement_type_rank b.1.trade_type)
      (flush_processing_order c6_env_ok [] c7w_list) :=
  (c7_flush_ordering c6_env_ok [] c7w_list).1

end NearMarket
